import Mathlib

/-!
Verification of the conversation state machine and lead-qualification engine
in `app/services/orchestration_service.py` (class `IntelligentHybridOrchestrator`).

The embedding translates the Python source directly:
* Python `str` is `String`; `len` counts code points, as `String.length` does.
  String primitives (`strip`, `split`, `lower`, `in`, `replace`, slicing) are
  re-implemented structurally over `List Char` so that they evaluate inside
  the kernel; each mirrors the CPython behaviour on the data this program
  handles.
* `dict.get(k, d)` on the session/lead dictionaries is modelled by fields with
  `Option` where the key may be absent, and by the recorded default otherwise.
* Timestamps (`created_at`, `last_updated`, `ended_at`, `lawyers_notified_at`,
  `previous_session_ended_at`) carry no logic and are omitted from the state.
* The qualification score is a float built from exact decimal literals
  (0.15, 0.10, ...); it is embedded in integer hundredths (`15`, `10`, ...),
  so `score ≥ 0.8` in the source becomes `80 ≤ score` here, and the spec's
  `[0,1]` bound is stated about `score / 100 : ℚ`.
* The collaborators that are not part of `src/` (`firebase_service`,
  `lawyer_notification_service`) are modelled from the spec as an oracle
  environment (see `Env` below).
-/

/-- Drop leading whitespace characters. -/
def trimLeftChars : List Char → List Char
  | [] => []
  | c :: t => if c.isWhitespace then trimLeftChars t else c :: t

/-- Python `str.strip()`: trim whitespace from both ends. -/
def pyTrim (s : String) : String :=
  String.mk ((trimLeftChars (trimLeftChars s.data).reverse).reverse)

/-- Helper for `pySplit`: walk the characters accumulating the current token. -/
def splitWsAux : List Char → List Char → List String
  | [], acc => if acc.isEmpty then [] else [String.mk acc.reverse]
  | c :: t, acc =>
    if c.isWhitespace then
      if acc.isEmpty then splitWsAux t []
      else String.mk acc.reverse :: splitWsAux t []
    else splitWsAux t (c :: acc)

/-- Python `str.split()` with no separator: split on whitespace runs,
dropping empty pieces. -/
def pySplit (s : String) : List String := splitWsAux s.data []

/-- Python `''.join(filter(str.isdigit, s))` restricted to ASCII digits,
the only digits appearing in this program's data. -/
def digitsOnly (s : String) : String :=
  String.mk (s.data.filter Char.isDigit)

/-- Python `str.lower()` on the characters this program compares:
ASCII letters and the Latin-1 accented uppercase range. -/
def pyCharLower (c : Char) : Char :=
  if 'A' ≤ c ∧ c ≤ 'Z' then Char.ofNat (c.toNat + 32)
  else if 'À' ≤ c ∧ c ≤ 'Þ' ∧ c ≠ '×' then Char.ofNat (c.toNat + 32)
  else c

/-- Python `str.lower()`. -/
def pyLower (s : String) : String := String.mk (s.data.map pyCharLower)

/-- Whether `needle` occurs at the start of `hay` (over char lists). -/
def startsWithChars : List Char → List Char → Bool
  | [], _ => true
  | _ :: _, [] => false
  | a :: n, b :: h => a == b && startsWithChars n h

/-- Whether `needle` occurs contiguously inside `hay` (over char lists). -/
def containsChars (hay needle : List Char) : Bool :=
  match hay with
  | [] => needle.isEmpty
  | _ :: t => startsWithChars needle hay || containsChars t needle

/-- Python `needle in hay` for strings: contiguous substring test. -/
def containsSub (hay needle : String) : Bool :=
  containsChars hay.data needle.data

/-- Fuel-bounded engine for `pyReplace`; the fuel starts above the text
length, enough to replace every occurrence of a non-empty pattern. -/
def replaceAux : Nat → List Char → List Char → List Char → List Char
  | 0, hay, _, _ => hay
  | _ + 1, [], _, _ => []
  | n + 1, c :: t, pat, rep =>
    if startsWithChars pat (c :: t) then
      rep ++ replaceAux n ((c :: t).drop pat.length) pat rep
    else c :: replaceAux n t pat rep

/-- Python `hay.replace(pat, rep)` for the non-empty constant patterns
(`"{user_name}"`, `"{area}"`) this program uses. -/
def pyReplace (hay pat rep : String) : String :=
  String.mk (replaceAux (hay.data.length + 1) hay.data pat.data rep.data)

/-- Python slicing `s[:n]` (by code points, as for the digit strings here). -/
def pyTake (s : String) (n : Nat) : String := String.mk (s.data.take n)

/-- Python slicing `s[n:]`. -/
def pyDrop (s : String) (n : Nat) : String := String.mk (s.data.drop n)

/-- Truthiness of `dict.get(field)` for an optional string entry:
a missing key and `""` are falsy, any other string is truthy. -/
def truthyOS : Option String → Bool
  | none => false
  | some v => v ≠ ""

/-- The `lead_data` mapping.  The six field names are the only keys the
orchestrator ever writes; `none` models an absent key. -/
structure LeadData where
  identification : Option String := none
  area_qualification : Option String := none
  case_details : Option String := none
  phone : Option String := none
  confirmation : Option String := none
  preferred_contact_time : Option String := none
deriving Repr, DecidableEq

/-- Writing a validated answer into the step's configured field
(`lead_data[field_name] = message.strip()` keyed by the step table's
`field` string). -/
def LeadData.setField (ld : LeadData) (f v : String) : LeadData :=
  if f = "identification" then { ld with identification := some v }
  else if f = "area_qualification" then { ld with area_qualification := some v }
  else if f = "case_details" then { ld with case_details := some v }
  else if f = "phone" then { ld with phone := some v }
  else if f = "confirmation" then { ld with confirmation := some v }
  else if f = "preferred_contact_time" then { ld with preferred_contact_time := some v }
  else ld

/-- A session record, per the dictionaries built in `_get_or_create_session`
(fresh and reset branches) and `handle_whatsapp_authorization`.  Keys that
some records lack are given the default the source supplies on `get`
(`""`, `0`, `False`); `phone_number` is `Option` because the source reads
it both with a `""` default and with a caller-supplied fallback. -/
structure Session where
  session_id : String := ""
  platform : String := "web"
  current_step : String := "greeting"
  lead_data : LeadData := {}
  message_count : Nat := 0
  flow_completed : Bool := false
  phone_submitted : Bool := false
  lawyers_notified : Bool := false
  first_interaction : Bool := true
  whatsapp_authorized : Bool := false
  authorization_source : String := ""
  session_ended : Bool := false
  phone_number : Option String := none
  reset_count : Nat := 0
  lead_qualified : Bool := false
  phone_formatted : String := ""
deriving Repr, DecidableEq

/-- `_validate_answer(answer, step, platform)` from the source:
returns `(accepted, error_message)`. -/
def validate_answer (answer : String) (step : String) (platform : String) :
    Bool × String :=
  if answer = "" ∨ (pyTrim answer).length < 2 then
    (false, "Por favor, forneça uma resposta válida.")
  else if step = "step1_name" then
    if (pySplit answer).length < 2 then
      (false, "Por favor, informe seu nome completo (nome e sobrenome).")
    else (true, "")
  else if step = "step3_area" then
    let keywords := ["penal", "saude", "saúde", "criminal", "liminar", "medic", "plano"]
    if ¬ keywords.any (fun k => containsSub (pyLower answer) k) then
      (false, "Por favor, escolha entre Direito Penal ou Direito da Saúde.")
    else (true, "")
  else if step = "step4_details" then
    if (pyTrim answer).length < 15 then
      (false, "Por favor, me conte mais detalhes sobre sua situação para que possamos ajudá-lo melhor.")
    else (true, "")
  else if step = "phone_collection" then
    if platform = "whatsapp" then
      let horario_keywords := ["manhã", "manha", "tarde", "noite", "horário", "horario",
        "h", ":", "qualquer", "tanto faz", "não me importo"]
      if ¬ horario_keywords.any (fun k => containsSub (pyLower answer) k) ∧
          ¬ answer.data.any Char.isDigit then
        (false, "Por favor, me diga qual o melhor horário para contato (manhã, tarde ou noite).")
      else (true, "")
    else
      let phone_clean := digitsOnly answer
      if phone_clean.length < 10 ∨ phone_clean.length > 13 then
        (false, "Por favor, digite um número de WhatsApp válido com DDD (ex: 11999999999).")
      else (true, "")
  else if step = "step5_confirmation" then
    let confirmation_words := ["sim", "ok", "pode", "vamos", "claro", "aceito", "concordo"]
    if ¬ confirmation_words.any (fun w => containsSub (pyLower answer) w) then
      (false, "Por favor, confirme se podemos prosseguir (responda 'sim' ou 'ok').")
    else (true, "")
  else (true, "")

/-- `_calculate_qualification_score(lead_data, platform)` from the source,
in integer hundredths of the source's decimal point values (`0.15 ↦ 15`,
..., cap `1.0 ↦ 100`).  The `platform` argument is received but unused,
as in the source. -/
def calculate_qualification_score (ld : LeadData) (_platform : String) : Nat :=
  let name := pyTrim (ld.identification.getD "")
  let s1 := if name.length ≥ 3 then 15 else 0
  let s2 := if (pySplit name).length ≥ 2 then 10 else 0
  let phone := pyTrim (ld.phone.getD "")
  let s3 := if phone ≠ "" ∧ phone.length ≥ 10 then 25 else 0
  let area := pyTrim (ld.area_qualification.getD "")
  let s4 := if area ≠ "" then 15 else 0
  let s5 :=
    if area ≠ "" ∧ ["penal", "saude", "saúde", "criminal", "plano"].any
        (fun k => containsSub (pyLower area) k) then 10 else 0
  let details := pyTrim (ld.case_details.getD "")
  let s6 := if details ≠ "" then 8 else 0
  let s7 := if details ≠ "" ∧ details.length ≥ 20 then 4 else 0
  let s8 := if details ≠ "" ∧ details.length ≥ 50 then 3 else 0
  let confirmation := pyTrim (ld.confirmation.getD "")
  let s9 := if confirmation ≠ "" then 10 else 0
  min (s1 + s2 + s3 + s4 + s5 + s6 + s7 + s8 + s9) 100

example : calculate_qualification_score {} "web" = 0 := by decide

example :
    calculate_qualification_score
      { identification := some "Maria Souza", phone := some "11987654321",
        area_qualification := some "Direito Penal",
        case_details := some "Fui acusada injustamente de um crime que não cometi, preciso de defesa",
        confirmation := some "sim" } "web" = 100 := by decide

example : validate_answer "Jo" "step1_name" "web" =
    (false, "Por favor, informe seu nome completo (nome e sobrenome).") := by decide

example : (validate_answer "João Silva" "step1_name" "web").1 = true := by decide

example : (validate_answer "preciso de um advogado penal" "step3_area" "web").1 = true := by decide

/-- `_get_personalized_greeting`: the strategic greeting, parameterized by
the current hour in America/Sao_Paulo (the only part of the timestamp the
source consults). -/
def get_personalized_greeting (hour : Nat) : String :=
  let greeting :=
    if 5 ≤ hour ∧ hour < 12 then "Bom dia"
    else if 12 ≤ hour ∧ hour < 18 then "Boa tarde"
    else "Boa noite"
  greeting ++ "! 👋\n\nBem-vindo ao m.lima Advogados Associados. 💼\n\nPara que eu possa direcionar você ao advogado especialista ideal e acelerar a solução do seu caso, preciso conhecer um pouco mais sobre sua situação.\n\nTudo bem? 😊"

/-- `_get_whatsapp_unauthorized_message`: fixed redirect-to-landing-page text. -/
def get_whatsapp_unauthorized_message : String :=
  "Olá! 👋\n\nPara iniciarmos seu atendimento personalizado e direcioná-lo ao advogado especialista ideal, precisamos que você acesse nossa página oficial:\n\n🌐 https://mlima.adv.br\n\nLá você encontrará:\n✅ Informações sobre nossas áreas de atuação\n✅ Formulário de atendimento\n✅ Botão direto para conversar conosco pelo WhatsApp\n\nAguardamos seu contato através da nossa página oficial! 😊\n\n---\nm.lima Advogados Associados\nAtendimento autorizado apenas via site oficial"

/-- `_get_strategic_whatsapp_message(user_name, area, phone_formatted)`:
conversion-optimized follow-up sent over WhatsApp after a web flow.  When
this is reached, `user_name` was already split successfully by the caller,
so the `headD` default is unreachable. -/
def get_strategic_whatsapp_message (user_name area _phone_formatted : String) : String :=
  let first_name := if user_name ≠ "" then (pySplit user_name).headD "Cliente" else "Cliente"
  let area_key :=
    if ["penal", "criminal", "crime"].any (fun w => containsSub (pyLower area) w) then "penal"
    else if ["saude", "saúde", "plano", "medic"].any (fun w => containsSub (pyLower area) w) then "saude"
    else "default"
  let expertise :=
    if area_key = "penal" then "Nossa equipe especializada em Direito Penal já resolveu centenas de casos similares"
    else if area_key = "saude" then "Nossos advogados especialistas em Direito da Saúde têm expertise em ações contra planos"
    else "Nossa equipe jurídica experiente"
  let urgency :=
    if area_key = "penal" then "Sabemos que situações criminais precisam de atenção IMEDIATA"
    else if area_key = "saude" then "Questões de saúde não podem esperar"
    else "Sua situação precisa de atenção especializada"
  let benefit :=
    if area_key = "penal" then "proteger seus direitos e buscar o melhor resultado possível"
    else if area_key = "saude" then "garantir seu tratamento e obter as coberturas devidas"
    else "alcançar a solução mais eficaz para seu caso"
  "🚀 " ++ first_name ++ ", uma EXCELENTE notícia!\n\n✅ Seu atendimento foi PRIORIZADO no sistema m.lima\n\n" ++
    expertise ++ " com resultados comprovados e já foi IMEDIATAMENTE notificada sobre seu caso.\n\n🎯 " ++
    urgency ++ " - por isso um advogado experiente entrará em contato com você nos PRÓXIMOS MINUTOS.\n\n🏆 DIFERENCIAL m.lima:\n- ⚡ Atendimento ágil e personalizado\n- 🎯 Estratégia focada em RESULTADOS\n- 📋 Acompanhamento completo do processo\n- 💪 Equipe com vasta experiência\n\nVocê fez a escolha certa ao confiar no m.lima para " ++
    benefit ++ ".\n\n⏰ Aguarde nossa ligação - sua situação está em excelentes mãos!\n\n---\n✉️ m.lima Advogados Associados\n📱 Contato prioritário ativado"

/-- One entry of the `_get_flow_steps` table. -/
structure StepConfig where
  question : String
  field : Option String
  next_step : String
deriving Repr, DecidableEq

/-- `_get_flow_steps(platform)`: the channel-parameterized step table, as a
partial map from step name to its entry (`none` models a missing dict key). -/
def get_flow_steps (hour : Nat) (platform : String) (step : String) : Option StepConfig :=
  let phone_step_question :=
    if platform = "whatsapp" then
      "Obrigado pelos detalhes, {user_name}! 📝\n\nPara organizarmos o melhor atendimento, qual o melhor horário para nossos advogados entrarem em contato com você?\n\n🕐 Manhã (8h-12h)\n🕐 Tarde (12h-18h)\n🕐 Noite (18h-20h)\n\nOu fique à vontade para sugerir um horário específico!"
    else
      "Obrigado pelos detalhes, {user_name}! 📝\n\nEstamos quase finalizando, preciso do seu WhatsApp com DDD (ex: 11999999999):"
  let phone_step_field := if platform = "whatsapp" then "preferred_contact_time" else "phone"
  if step = "greeting" then
    some { question := get_personalized_greeting hour, field := none, next_step := "step1_name" }
  else if step = "step1_name" then
    some { question := "Qual é o seu nome completo? 😊",
           field := some "identification", next_step := "step3_area" }
  else if step = "step3_area" then
    some { question := "Prazer em conhecê-lo, {user_name}! 🤝\n\nEm qual área do direito você precisa de nossa ajuda?\n\n⚖️ Direito Penal (crimes, investigações, defesas)\n🏥 Direito da Saúde (planos de saúde, ações médicas, liminares)\n\nQual dessas áreas tem a ver com sua situação?",
           field := some "area_qualification", next_step := "step4_details" }
  else if step = "step4_details" then
    some { question := "Entendi, {user_name}. 💼\n\nPara nossos advogados já terem uma visão completa, me conte:\n\n• Sua situação já está na justiça ou é algo que acabou de acontecer?\n• Tem algum prazo urgente ou audiência marcada?\n• Em que cidade isso está ocorrendo?\n\nFique à vontade para me contar os detalhes! 🤝",
           field := some "case_details", next_step := "phone_collection" }
  else if step = "phone_collection" then
    some { question := phone_step_question, field := some phone_step_field,
           next_step := "step5_confirmation" }
  else if step = "step5_confirmation" then
    some { question := "Perfeito, {user_name}! 🙏\n\nVou registrar todas essas informações para que o advogado responsável já entenda completamente seu caso e possa te ajudar com agilidade.\n\nEm alguns minutos você estará falando diretamente com um especialista. Podemos prosseguir? 🚀",
           field := some "confirmation", next_step := "completed" }
  else none

/-- `_interpolate_message(message, lead_data)`: substitute `{user_name}` with
the first token of the stored identification and `{area}` with the stored
area.  The source's `try/except` returns the message unchanged when
`user_name.split()[0]` raises on a whitespace-only name. -/
def interpolate_message (message : String) (ld : LeadData) : String :=
  if message = "" then "Como posso ajudá-lo?"
  else
    let user_name := ld.identification.getD ""
    if user_name ≠ "" ∧ containsSub message "{user_name}" ∧ pySplit user_name = [] then
      message
    else
      let m1 :=
        if user_name ≠ "" ∧ containsSub message "{user_name}" then
          pyReplace message "{user_name}" ((pySplit user_name).headD "")
        else message
      let area := ld.area_qualification.getD ""
      if area ≠ "" ∧ containsSub m1 "{area}" then pyReplace m1 "{area}" area else m1

/-- `_format_brazilian_phone(phone_clean)`: normalize into the WhatsApp
address form (country code 55, 9-prefix insertion for 8-digit mobile
suffixes of 10-digit numbers). -/
def format_brazilian_phone (phone : String) : String :=
  if phone = "" then ""
  else
    let pc := digitsOnly phone
    let pc := if startsWithChars ['5', '5'] pc.data then pyDrop pc 2 else pc
    if pc.length = 8 then "55" ++ pc
    else if pc.length = 9 then "55" ++ pc
    else if pc.length = 10 then
      let ddd := pyTake pc 2
      let number := pyDrop pc 2
      let number :=
        if number.length = 8 ∧ (number.data.headD ' ') ∈ ['6', '7', '8', '9'] then
          "9" ++ number
        else number
      "55" ++ ddd ++ number
    else if pc.length = 11 then
      "55" ++ pyTake pc 2 ++ pyDrop pc 2
    else "55" ++ pc

/-- The decision record returned by `should_notify_lawyers`.  The
human-readable `message` strings and the extra diagnostic keys of the
positive branches (`engagement_level`, `current_step`) carry no control
flow and are not modelled; `qualification_score` is `none` exactly on the
branches whose source dict has no such key. -/
structure NotifyDecision where
  should_notify : Bool
  reason : String
  qualification_score : Option Nat := none
  missing_criteria : List String := []
deriving Repr, DecidableEq

/-- `_get_missing_criteria(session_data, platform)`. -/
def get_missing_criteria (s : Session) (platform : String) : List String :=
  let ld := s.lead_data
  (if ¬ truthyOS ld.identification then ["nome_completo"] else []) ++
  (if ¬ truthyOS ld.phone then ["telefone"] else []) ++
  (if ¬ truthyOS ld.area_qualification then ["area_juridica"] else []) ++
  (if platform = "web" then
    (if ¬ truthyOS ld.case_details then ["detalhes_caso"] else []) ++
    (if ¬ truthyOS ld.confirmation then ["confirmacao"] else []) ++
    (if ¬ s.flow_completed then ["fluxo_incompleto"] else [])
  else if platform = "whatsapp" then
    (if s.message_count < 3 then ["engajamento_insuficiente"] else [])
  else [])

/-- `should_notify_lawyers(session_data, platform)`: the Notification Gate.
The `already_notified` guard runs before anything else; the web and
whatsapp eligibility criteria follow the source line by line (score
thresholds `0.8`/`0.7` are `80`/`70` in hundredths). -/
def should_notify_lawyers (s : Session) (platform : String) : NotifyDecision :=
  if s.lawyers_notified then
    { should_notify := false, reason := "already_notified" }
  else
    let ld := s.lead_data
    let not_qualified : NotifyDecision :=
      { should_notify := false, reason := "not_qualified_yet",
        qualification_score := some (calculate_qualification_score ld platform),
        missing_criteria := get_missing_criteria s platform }
    if platform = "web" then
      let has_required_fields :=
        truthyOS ld.identification ∧ truthyOS ld.area_qualification ∧
        truthyOS ld.case_details ∧ truthyOS ld.phone ∧ truthyOS ld.confirmation
      let criteria_met :=
        s.flow_completed = true ∧ has_required_fields ∧
        (pyTrim (ld.identification.getD "")).length ≥ 3 ∧
        (pyTrim (ld.case_details.getD "")).length ≥ 15 ∧
        (pyTrim (ld.phone.getD "")).length ≥ 10
      let qualification_score := calculate_qualification_score ld platform
      if criteria_met ∧ qualification_score ≥ 80 then
        { should_notify := true, reason := "web_flow_completed",
          qualification_score := some qualification_score }
      else not_qualified
    else if platform = "whatsapp" then
      let has_required_fields :=
        truthyOS ld.identification ∧ truthyOS ld.area_qualification ∧ truthyOS ld.phone
      let engagement_criteria :=
        s.message_count ≥ 3 ∧ has_required_fields ∧
        (pyTrim (ld.identification.getD "")).length ≥ 3 ∧
        (pyTrim (ld.area_qualification.getD "")).length ≥ 3 ∧
        (pyTrim (ld.phone.getD "")).length ≥ 10
      let advanced_step := s.current_step = "step5_confirmation" ∨ s.current_step = "completed"
      let qualification_score := calculate_qualification_score ld platform
      if engagement_criteria ∧ advanced_step ∧ qualification_score ≥ 70 then
        { should_notify := true, reason := "whatsapp_qualified",
          qualification_score := some qualification_score }
      else not_qualified
    else not_qualified

deriving instance DecidableEq for Except

/-- Oracle outcomes for the external collaborators, consumed in call order;
an exhausted list means "succeed".  `saveResults`: `none` = write succeeds,
`some e` = the write raises `e`.  `notifyResults` / `sendResults`:
`.error e` = the call raises, `.ok b` = it returns `{"success": b}`.
`hour`: the current hour used by the greeting. -/
structure Env where
  hour : Nat := 10
  saveResults : List (Option String) := []
  notifyResults : List (Except String Bool) := []
  sendResults : List (Except String Bool) := []
  leadSaveResults : List (Except String String) := []
deriving Repr, DecidableEq

/-- The world threaded through the orchestrator: the durable session store
(most recent write first), the collaborator oracle, and a counter of
notification-dispatcher invocations (used to state the single-fire
properties). -/
structure World where
  store : List (String × Session) := []
  env : Env := {}
  notifyCalls : Nat := 0
deriving Repr, DecidableEq

/-- Most-recent-write lookup in the session store. -/
def storeGet : List (String × Session) → String → Option Session
  | [], _ => none
  | (k, v) :: rest, id => if k = id then some v else storeGet rest id

/-- Modelled from the spec: Session Store `get(session_id)` of the missing
`firebase_service.get_user_session`; a read of the durable store. -/
def get_user_session (w : World) (id : String) : Option Session :=
  storeGet w.store id

/-- Modelled from the spec: Session Store `put(session_id, Session)` of the
missing `firebase_service.save_user_session`; the write may fail, which
surfaces as an exception at the call site. -/
def save_user_session (w : World) (id : String) (s : Session) :
    Except String Unit × World :=
  match w.env.saveResults with
  | [] => (.ok (), { w with store := (id, s) :: w.store })
  | none :: rest =>
    (.ok (), { w with store := (id, s) :: w.store,
                      env := { w.env with saveResults := rest } })
  | some e :: rest =>
    (.error e, { w with env := { w.env with saveResults := rest } })

/-- Modelled from the spec: the missing
`lawyer_notification_service.notify_lawyers_of_new_lead`; every call is an
invocation of the notification dispatcher (counted), which may raise or
report success/failure. -/
def notify_lawyers_of_new_lead (w : World) (_lead_name _lead_phone _category _case_details : String) :
    Except String Bool × World :=
  let w1 := { w with notifyCalls := w.notifyCalls + 1 }
  match w1.env.notifyResults with
  | [] => (.ok true, w1)
  | r :: rest => (r, { w1 with env := { w1.env with notifyResults := rest } })

/-- `evolution_service.send_text_message`: the outbound messaging client;
its HTTP result is environmental and drawn from the oracle. -/
def send_text_message (w : World) (_phone _text : String) :
    Except String Bool × World :=
  match w.env.sendResults with
  | [] => (.ok true, w)
  | r :: rest => (r, { w with env := { w.env with sendResults := rest } })

/-- Modelled from the spec: Lead Store `append(lead_record)` of the missing
`firebase_service.save_lead_data`. -/
def save_lead_data (w : World) : Except String String × World :=
  match w.env.leadSaveResults with
  | [] => (.ok "lead_id", w)
  | r :: rest => (r, { w with env := { w.env with leadSaveResults := rest } })

/-- Result record of `notify_lawyers_if_qualified` (the keys the callers
consult; diagnostic sub-dicts are not modelled). -/
structure NotifResult where
  notified : Bool
  success : Option Bool := none
  reason : Option String := none
  error : Option String := none
deriving Repr, DecidableEq

/-- `notify_lawyers_if_qualified(session_id, session_data, platform)`:
evaluate the gate and, on a positive decision, invoke the dispatcher; on
dispatcher success set `lawyers_notified` and persist.  All failures are
caught inside, so the call is total. -/
def notify_lawyers_if_qualified (w : World) (session_id : String) (s : Session)
    (platform : String) : NotifResult × Session × World :=
  let check := should_notify_lawyers s platform
  if ¬ check.should_notify then
    ({ notified := false, reason := some check.reason }, s, w)
  else
    let lead_data := s.lead_data
    let user_name := lead_data.identification.getD "Lead Qualificado"
    let area := lead_data.area_qualification.getD "não especificada"
    let case_details := lead_data.case_details.getD "aguardando mais detalhes"
    let phone_clean := lead_data.phone.getD ""
    match notify_lawyers_of_new_lead w user_name phone_clean area case_details with
    | (.error _, w1) =>
      ({ notified := true, success := some false,
         error := some "notification_exception" }, s, w1)
    | (.ok success, w1) =>
      if success then
        let s1 := { s with lawyers_notified := true }
        match save_user_session w1 session_id s1 with
        | (.error _, w2) =>
          ({ notified := true, success := some false,
             error := some "notification_exception" }, s1, w2)
        | (.ok _, w2) =>
          ({ notified := true, success := some true }, s1, w2)
      else
        ({ notified := true, success := some false,
           error := some "notification_failed" }, s, w1)

/-- Result record of `end_session`. -/
structure EndResult where
  status : String
  session_id : String
  message : String
  error : Option String := none
deriving Repr, DecidableEq

/-- `end_session(session_id)`: mark the stored session ended and set
`current_step = "ended"` (the local in-memory cache `self.sessions` is
written nowhere else and is not modelled). -/
def end_session (w : World) (session_id : String) : EndResult × World :=
  match get_user_session w session_id with
  | some sd =>
    let sd1 := { sd with session_ended := true, current_step := "ended" }
    match save_user_session w session_id sd1 with
    | (.error e, w1) =>
      ({ status := "error", session_id := session_id,
         message := "Erro ao encerrar sessão", error := some e }, w1)
    | (.ok _, w1) =>
      ({ status := "ended", session_id := session_id,
         message := "Sessão encerrada com sucesso" }, w1)
  | none =>
    ({ status := "not_found", session_id := session_id,
       message := "Sessão não encontrada" }, w)

/-- The fresh-session dict of `_get_or_create_session` (keys absent from the
literal get their `get` defaults). -/
def freshSession (session_id platform : String) : Session :=
  { session_id := session_id, platform := platform, current_step := "greeting",
    lead_data := {}, message_count := 0, flow_completed := false,
    phone_submitted := false, lawyers_notified := false, first_interaction := true,
    whatsapp_authorized := false, session_ended := false }

/-- The trailing `if phone_number: session_data["phone_number"] = phone_number`
of `_get_or_create_session` (applied to the fresh and existing branches;
the reset branch returns before it). -/
def applyPhoneArg (s : Session) (phone_number : Option String) : Session :=
  match phone_number with
  | some p => if p ≠ "" then { s with phone_number := some p } else s
  | none => s

/-- `_get_or_create_session(session_id, platform, phone_number)`:
load the stored session; recycle it into a fresh record when it is ended or
completed (preserving authorization and, for whatsapp, the phone number, and
bumping `reset_count`); create and persist a fresh record when absent.
Store-write failures propagate (the caller's `try` catches them). -/
def get_or_create_session (w : World) (session_id platform : String)
    (phone_number : Option String) : Except String Session × World :=
  match get_user_session w session_id with
  | some sd =>
    if sd.session_ended ∨ sd.flow_completed then
      let whatsapp_auth := sd.whatsapp_authorized
      let auth_source := sd.authorization_source
      let old_phone := match sd.phone_number with
        | some p => some p
        | none => phone_number
      let s1 : Session :=
        { session_id := session_id, platform := platform,
          current_step := "greeting", lead_data := {}, message_count := 0,
          flow_completed := false, phone_submitted := false,
          lawyers_notified := false, first_interaction := true,
          whatsapp_authorized := if platform = "whatsapp" then whatsapp_auth else false,
          authorization_source := auth_source, session_ended := false,
          phone_number := if platform = "whatsapp" then old_phone else phone_number,
          reset_count := sd.reset_count + 1 }
      match save_user_session w session_id s1 with
      | (.error e, w1) => (.error e, w1)
      | (.ok _, w1) => (.ok s1, w1)
    else
      (.ok (applyPhoneArg sd phone_number), w)
  | none =>
    let s1 := freshSession session_id platform
    match save_user_session w session_id s1 with
    | (.error e, w1) => (.error e, w1)
    | (.ok _, w1) => (.ok (applyPhoneArg s1 phone_number), w1)

/-- Python `user_name.split()[0] if user_name else default`: raises
`IndexError` when the name is non-empty but all whitespace. -/
def firstNameOr (user_name default : String) : Except String String :=
  if user_name ≠ "" then
    match pySplit user_name with
    | [] => .error "IndexError"
    | t :: _ => .ok t
  else .ok default

/-- Lines 857-859: resolve the phone from `lead_data.phone`, falling back
to the session's channel-supplied phone number. -/
def resolve_phone (ld : LeadData) (s : Session) : String :=
  let phone_clean0 := ld.phone.getD ""
  if phone_clean0 = "" then s.phone_number.getD "" else phone_clean0

/-- The `session_data.update(...)` record of `_handle_lead_finalization`
(lines 866-876): phone fields filled, `lead_qualified` set. -/
def finalization_session (s0 : Session) (phone_clean phone_formatted : String) : Session :=
  { s0 with phone_number := some phone_clean, phone_formatted := phone_formatted,
            phone_submitted := true, lead_qualified := true,
            lead_data := { s0.lead_data with phone := some phone_clean } }

/-- The notification block of `_handle_lead_finalization` (its inner `try`,
lines 880-915): if not already notified, invoke the dispatcher; on success
set `lawyers_notified` and persist; every failure is caught and leaves
`notification_success` false. -/
def finalization_notify_block (w1 : World) (session_id : String) (s1 : Session)
    (user_name phone_clean area case_details : String) : Bool × Session × World :=
  if ¬ s1.lawyers_notified then
    match notify_lawyers_of_new_lead w1 user_name phone_clean area case_details with
    | (.error _, wa) => (false, s1, wa)
    | (.ok success, wa) =>
      if success then
        let s' := { s1 with lawyers_notified := true }
        match save_user_session wa session_id s' with
        | (.error _, wb) => (false, s', wb)
        | (.ok _, wb) => (true, s', wb)
      else (false, s1, wa)
  else (true, s1, w1)

/-- `_handle_lead_finalization`, body of its outer `try` (lines 847-968).
Returns the outgoing text, the mutated session and world; `.error`
propagates to the outer `except` modelled in `handle_lead_finalization`. -/
def handle_lead_finalization_core (w : World) (session_id : String) (s0 : Session) :
    Except String String × Session × World :=
  let lead_data := s0.lead_data
  let platform := s0.platform
  let user_name := lead_data.identification.getD "Cliente"
  match firstNameOr user_name "Cliente" with
  | .error e => (.error e, s0, w)
  | .ok first_name =>
    let area := lead_data.area_qualification.getD "não especificada"
    let case_details := lead_data.case_details.getD "aguardando mais detalhes"
    let phone_clean := resolve_phone lead_data s0
    if phone_clean = "" ∨ phone_clean.length < 10 then
      (.ok ("Para finalizar, " ++ first_name ++ ", preciso do seu WhatsApp com DDD (ex: 11999999999):"), s0, w)
    else
      let phone_formatted := format_brazilian_phone phone_clean
      let s1 : Session := finalization_session s0 phone_clean phone_formatted
      match save_user_session w session_id s1 with
      | (.error e, w1) => (.error e, s1, w1)
      | (.ok _, w1) =>
        let (notification_success, s2, w2) :=
          finalization_notify_block w1 session_id s1 user_name phone_clean area case_details
        let (_lead_result, w3) := save_lead_data w2
        let (whatsapp_success, w4) :=
          if platform = "web" then
            let strategic_message := get_strategic_whatsapp_message user_name area phone_formatted
            match send_text_message w3 phone_formatted strategic_message with
            | (.ok true, wc) => (true, wc)
            | (.ok false, wc) => (false, wc)
            | (.error _, wc) => (false, wc)
          else (false, w3)
        let notification_status :=
          if notification_success then " ⚡ Nossa equipe foi imediatamente notificada!" else ""
        let final_message :=
          "Perfeito, " ++ first_name ++ "! ✅\n\nTodas suas informações foram registradas com sucesso" ++
          notification_status ++
          "\n\nUm advogado experiente do m.lima entrará em contato com você em breve para dar prosseguimento ao seu caso com toda atenção necessária.\n\n" ++
          (if whatsapp_success then "📱 Mensagem de confirmação enviada no seu WhatsApp!"
           else "📝 Suas informações foram salvas com segurança.") ++
          "\n\nVocê fez a escolha certa ao confiar no escritório m.lima para cuidar do seu caso!\n\nEm alguns minutos, um especialista entrará em contato."
        (.ok final_message, s2, w4)

/-- `_handle_lead_finalization` with its outer `except`: any internal raise
becomes the generic thank-you fallback (which itself re-raises when the
stored identification is non-empty whitespace). -/
def handle_lead_finalization (w : World) (session_id : String) (s0 : Session) :
    Except String String × Session × World :=
  match handle_lead_finalization_core w session_id s0 with
  | (.ok r, s1, w1) => (.ok r, s1, w1)
  | (.error _, s1, w1) =>
    let user_name := s1.lead_data.identification.getD ""
    match firstNameOr user_name "" with
    | .error e => (.error e, s1, w1)
    | .ok first_name =>
      (.ok ("Obrigado pelas informações, " ++ first_name ++ "! Nossa equipe entrará em contato em breve."), s1, w1)

/-- Lines 720-723 of `_process_conversation_flow`: the session-ended reply. -/
def flow_ended_branch (w : World) (s0 : Session) :
    Except String String × Session × World :=
  match firstNameOr (s0.lead_data.identification.getD "") "" with
  | .error e => (.error e, s0, w)
  | .ok user_name =>
    (.ok ("Esta conversa já foi finalizada, " ++ user_name ++ ". Nossa equipe entrará em contato em breve!"), s0, w)

/-- Lines 729-736: consume `first_interaction`, move to `step1_name`, emit
greeting plus the name question. -/
def flow_first_interaction_branch (w : World) (s0 : Session) :
    Except String String × Session × World :=
  let s1 := { s0 with first_interaction := false, current_step := "step1_name" }
  match save_user_session w s0.session_id s1 with
  | (.error e, w1) => (.error e, s1, w1)
  | (.ok _, w1) =>
    (.ok (get_personalized_greeting w1.env.hour ++ "\n\n" ++ "Qual é o seu nome completo? 😊"), s1, w1)

/-- Lines 738-741: advance a lingering `greeting` step to `step1_name`. -/
def flow_greeting_branch (w : World) (s0 : Session) :
    Except String String × Session × World :=
  let s1 := { s0 with current_step := "step1_name" }
  match save_user_session w s0.session_id s1 with
  | (.error e, w1) => (.error e, s1, w1)
  | (.ok _, w1) => (.ok "Qual é o seu nome completo? 😊", s1, w1)

/-- Lines 743-745: the fixed closing acknowledgement for a completed flow. -/
def flow_completed_branch (w : World) (s0 : Session) :
    Except String String × Session × World :=
  match firstNameOr (s0.lead_data.identification.getD "") "" with
  | .error e => (.error e, s0, w)
  | .ok user_name =>
    (.ok ("Obrigado, " ++ user_name ++ "! Nossa equipe já foi notificada e entrará em contato em breve. 😊"), s0, w)

/-- Lines 747-781: the channel-divergent `phone_collection` step. -/
def flow_phone_collection_branch (w : World) (s0 : Session) (message : String) :
    Except String String × Session × World :=
  if s0.platform = "whatsapp" then
    let (is_valid, error_msg) := validate_answer message "phone_collection" s0.platform
    if ¬ is_valid then (.ok error_msg, s0, w)
    else
      let ld1 := { s0.lead_data with preferred_contact_time := some (pyTrim message) }
      let ld2 := match s0.phone_number with
        | some p => if p ≠ "" then { ld1 with phone := some p } else ld1
        | none => ld1
      let s1 := { s0 with lead_data := ld2, phone_submitted := true,
                          current_step := "step5_confirmation" }
      match save_user_session w s0.session_id s1 with
      | (.error e, w1) => (.error e, s1, w1)
      | (.ok _, w1) =>
        match get_flow_steps w1.env.hour s0.platform "step5_confirmation" with
        | some cfg => (.ok (interpolate_message cfg.question ld2), s1, w1)
        | none => (.error "KeyError", s1, w1)
  else
    let (is_valid, error_msg) := validate_answer message "phone_collection" s0.platform
    if ¬ is_valid then (.ok error_msg, s0, w)
    else
      let phone_clean := digitsOnly message
      let ld1 := { s0.lead_data with phone := some phone_clean }
      let s1 := { s0 with lead_data := ld1, phone_submitted := true,
                          current_step := "step5_confirmation" }
      match save_user_session w s0.session_id s1 with
      | (.error e, w1) => (.error e, s1, w1)
      | (.ok _, w1) =>
        match get_flow_steps w1.env.hour s0.platform "step5_confirmation" with
        | some cfg => (.ok (interpolate_message cfg.question ld1), s1, w1)
        | none => (.error "KeyError", s1, w1)

/-- Lines 783-808: a recognized table step — validate, record the field,
advance; reaching `completed` sets `flow_completed` and runs finalization. -/
def flow_step_branch (w : World) (s0 : Session) (message : String)
    (step_config : StepConfig) : Except String String × Session × World :=
  let (is_valid, error_msg) := validate_answer message s0.current_step s0.platform
  if ¬ is_valid then (.ok error_msg, s0, w)
  else
    let ld1 := match step_config.field with
      | some field_name => s0.lead_data.setField field_name (pyTrim message)
      | none => s0.lead_data
    let next_step := step_config.next_step
    if next_step = "completed" then
      let s2 := { s0 with lead_data := ld1, current_step := "completed",
                          flow_completed := true }
      match save_user_session w s0.session_id s2 with
      | (.error e, w1) => (.error e, s2, w1)
      | (.ok _, w1) => handle_lead_finalization w1 s0.session_id s2
    else
      let s2 := { s0 with lead_data := ld1, current_step := next_step }
      match save_user_session w s0.session_id s2 with
      | (.error e, w1) => (.error e, s2, w1)
      | (.ok _, w1) =>
        match get_flow_steps w1.env.hour s0.platform next_step with
        | some next_cfg => (.ok (interpolate_message next_cfg.question ld1), s2, w1)
        | none => (.error "KeyError", s2, w1)

/-- Lines 810-814: unknown `current_step` — self-healing reset to greeting. -/
def flow_invalid_branch (w : World) (s0 : Session) :
    Except String String × Session × World :=
  let s1 := { s0 with current_step := "greeting", first_interaction := true }
  match save_user_session w s0.session_id s1 with
  | (.error e, w1) => (.error e, s1, w1)
  | (.ok _, w1) => (.ok (get_personalized_greeting w1.env.hour), s1, w1)

/-- `_process_conversation_flow`, body of its `try` (lines 712-814),
dispatching over the branches above in source order. -/
def process_conversation_flow_core (w : World) (s0 : Session) (message : String) :
    Except String String × Session × World :=
  if s0.session_ended then flow_ended_branch w s0
  else if s0.first_interaction then flow_first_interaction_branch w s0
  else if s0.current_step = "greeting" then flow_greeting_branch w s0
  else if s0.current_step = "completed" then flow_completed_branch w s0
  else if s0.current_step = "phone_collection" then
    flow_phone_collection_branch w s0 message
  else
    match get_flow_steps w.env.hour s0.platform s0.current_step with
    | some step_config => flow_step_branch w s0 message step_config
    | none => flow_invalid_branch w s0

/-- `_process_conversation_flow` with its `except`: any internal raise is
converted into the personalized greeting; mutations already applied to the
session and store remain. -/
def process_conversation_flow (w : World) (s0 : Session) (message : String) :
    String × Session × World :=
  match process_conversation_flow_core w s0 message with
  | (.ok r, s1, w1) => (r, s1, w1)
  | (.error _, s1, w1) => (get_personalized_greeting w1.env.hour, s1, w1)

/-- Python truthiness of the `lead_data` dict: empty dict is falsy.  The
orchestrator only ever adds keys to `lead_data`, so dict emptiness
coincides with every modelled field being absent. -/
def LeadData.isTruthy (ld : LeadData) : Bool := ld ≠ ({} : LeadData)

/-- The result dict of `process_message` (error and early-return variants
leave the keys they do not set at `none`/`false`, matching the dicts the
source builds on those paths).  `qualification_score` is in hundredths. -/
structure PMResult where
  response_type : String
  platform : String
  session_id : Option String := none
  response : String
  ai_mode : Option Bool := none
  current_step : Option String := none
  flow_completed : Bool := false
  lawyers_notified : Bool := false
  phone_submitted : Option Bool := none
  lead_data : Option LeadData := none
  message_count : Option Nat := none
  whatsapp_authorized : Option Bool := none
  session_ended : Option Bool := none
  qualification_score : Option Nat := none
  error : Option String := none
deriving Repr, DecidableEq

/-- Lines 1086-1088: replace an empty response by the generic fallback. -/
def patchResponse (r : PMResult) : PMResult :=
  if r.response = "" then { r with response := "Como posso ajudá-lo hoje?" } else r

/-- Lines 1047-1050: a WhatsApp session carrying lead data but not yet
authorized is marked authorized and persisted. -/
def pm_auth_step (w1 : World) (session_id : String) (sd0 : Session) (platform : String) :
    Except String (Session × World) :=
  if platform = "whatsapp" ∧ sd0.lead_data.isTruthy ∧ ¬ sd0.whatsapp_authorized then
    let sd1 := { sd0 with whatsapp_authorized := true }
    match save_user_session w1 session_id sd1 with
    | (.error e, _w2) => .error e
    | (.ok _, w2) => .ok (sd1, w2)
  else .ok (sd0, w1)

/-- Lines 1054-1059: for WhatsApp with a caller-supplied phone number,
store it on the session and into `lead_data.phone`. -/
def pm_inject_phone (sd1 : Session) (platform : String) (phone_number : Option String) :
    Session :=
  if platform = "whatsapp" ∧ truthyOS phone_number then
    { sd1 with phone_number := phone_number,
               lead_data := { sd1.lead_data with phone := phone_number } }
  else sd1

/-- `process_message`, body of its `try` (lines 1015-1090). -/
def process_message_core (w : World) (message session_id : String)
    (phone_number : Option String) (platform : String) :
    Except String PMResult × World :=
  if session_id = "" ∨ pyTrim session_id = "" then
    (.ok { response_type := "no_session", platform := platform,
           response := "⚠️ Para continuar, você precisa gerar sua ficha na nossa landing page.",
           flow_completed := false, lawyers_notified := false }, w)
  else
    match get_or_create_session w session_id platform phone_number with
    | (.error e, w1) => (.error e, w1)
    | (.ok sd0, w1) =>
      if platform = "whatsapp" ∧ ¬ sd0.whatsapp_authorized ∧ ¬ sd0.lead_data.isTruthy then
        (.ok { response_type := "whatsapp_unauthorized", platform := platform,
               session_id := some session_id,
               response := get_whatsapp_unauthorized_message,
               flow_completed := false, lawyers_notified := false,
               whatsapp_authorized := some false }, w1)
      else
        match pm_auth_step w1 session_id sd0 platform with
        | .error e => (.error e, w1)
        | .ok (sd1, w2) =>
          let sd2 := pm_inject_phone sd1 platform phone_number
          let (response, s3, w3) := process_conversation_flow w2 sd2 message
          let s4 := { s3 with message_count := s3.message_count + 1 }
          match save_user_session w3 session_id s4 with
          | (.error e, w4) => (.error e, w4)
          | (.ok _, w4) =>
            let result : PMResult :=
              { response_type := platform ++ "_flow", platform := platform,
                session_id := some session_id, response := response,
                ai_mode := some false, current_step := some s4.current_step,
                flow_completed := s4.flow_completed,
                lawyers_notified := s4.lawyers_notified,
                phone_submitted := some s4.phone_submitted,
                lead_data := some s4.lead_data,
                message_count := some s4.message_count,
                whatsapp_authorized := some s4.whatsapp_authorized,
                session_ended := some s4.session_ended,
                qualification_score :=
                  some (calculate_qualification_score s4.lead_data platform) }
            (.ok (patchResponse result), w4)

/-- `process_message` with its outer `except`: any raise is converted into
the `orchestration_error` result whose response is the personalized
greeting (or the fixed fallback if that were empty). -/
def process_message (w : World) (message session_id : String)
    (phone_number : Option String) (platform : String) : PMResult × World :=
  match process_message_core w message session_id phone_number platform with
  | (.ok r, w1) => (r, w1)
  | (.error e, w1) =>
    let g := get_personalized_greeting w1.env.hour
    ({ response_type := "orchestration_error", platform := platform,
       session_id := some session_id,
       response := if g = "" then "Olá! Como posso ajudá-lo?" else g,
       error := some e }, w1)

/-- The `user_data` mapping of an authorization event; `none` models the
absent/empty dict, which is falsy. -/
structure UserData where
  name : Option String := none
  area : Option String := none
  problem : Option String := none
deriving Repr, DecidableEq

/-- The `auth_data` argument of `handle_whatsapp_authorization`, with the
source's `get` defaults. -/
structure AuthData where
  session_id : String := ""
  phone_number : String := ""
  source : String := "unknown"
  user_data : Option UserData := none
deriving Repr, DecidableEq

/-- The status record returned by `handle_whatsapp_authorization`. -/
structure AuthResult where
  status : String
  session_id : Option String := none
  phone_number : Option String := none
  source : Option String := none
  whatsapp_authorized : Option Bool := none
  pre_populated : Option Bool := none
  error : Option String := none
deriving Repr, DecidableEq

/-- The pre-populated session synthesized for a landing-chat authorization
(lines 1117-1140). -/
def landing_chat_session (session_id phone_number source : String) (u : UserData) :
    Session :=
  { session_id := session_id, platform := "whatsapp",
    phone_number := some phone_number, current_step := "completed",
    lead_data := { identification := some (u.name.getD ""),
                   area_qualification := some (u.area.getD "não especificada"),
                   case_details := some (u.problem.getD "Detalhes do chat da landing"),
                   phone := some phone_number, confirmation := some "sim" },
    message_count := 1, flow_completed := true, phone_submitted := true,
    lead_qualified := true, lawyers_notified := false, whatsapp_authorized := true,
    session_ended := false, first_interaction := false,
    authorization_source := source }

/-- `handle_whatsapp_authorization`, body of its `try` (lines 1108-1183). -/
def handle_whatsapp_authorization_core (w : World) (auth : AuthData) :
    Except String AuthResult × World :=
  let session_id := auth.session_id
  let phone_number := auth.phone_number
  let source := auth.source
  let ok_result : AuthResult :=
    { status := "authorization_processed", session_id := some session_id,
      phone_number := some phone_number, source := some source,
      whatsapp_authorized := some true,
      pre_populated := some (auth.user_data.isSome ∧ source = "landing_chat") }
  match auth.user_data with
  | some user_data =>
    if source = "landing_chat" then
      let session_data := landing_chat_session session_id phone_number source user_data
      match save_user_session w session_id session_data with
      | (.error e, w1) => (.error e, w1)
      | (.ok _, w1) =>
        let (_nres, _s, w2) :=
          notify_lawyers_if_qualified w1 session_id session_data "whatsapp"
        (.ok ok_result, w2)
    else
      match get_user_session w session_id with
      | some sd =>
        let sd1 := { sd with whatsapp_authorized := true, authorization_source := source }
        match save_user_session w session_id sd1 with
        | (.error e, w1) => (.error e, w1)
        | (.ok _, w1) => (.ok ok_result, w1)
      | none =>
        let s1 := { freshSession session_id "whatsapp" with
                    phone_number := some phone_number, whatsapp_authorized := true,
                    authorization_source := source }
        match save_user_session w session_id s1 with
        | (.error e, w1) => (.error e, w1)
        | (.ok _, w1) => (.ok ok_result, w1)
  | none =>
    match get_user_session w session_id with
    | some sd =>
      let sd1 := { sd with whatsapp_authorized := true, authorization_source := source }
      match save_user_session w session_id sd1 with
      | (.error e, w1) => (.error e, w1)
      | (.ok _, w1) => (.ok ok_result, w1)
    | none =>
      let s1 := { freshSession session_id "whatsapp" with
                  phone_number := some phone_number, whatsapp_authorized := true,
                  authorization_source := source }
      match save_user_session w session_id s1 with
      | (.error e, w1) => (.error e, w1)
      | (.ok _, w1) => (.ok ok_result, w1)

/-- `handle_whatsapp_authorization` with its `except`. -/
def handle_whatsapp_authorization (w : World) (auth : AuthData) :
    AuthResult × World :=
  match handle_whatsapp_authorization_core w auth with
  | (.ok r, w1) => (r, w1)
  | (.error e, w1) => ({ status := "authorization_error", error := some e }, w1)

/-- One invocation of a public entry point of the orchestrator. -/
inductive Op where
  | processMsg (message session_id : String) (phone_number : Option String) (platform : String)
  | authorize (auth : AuthData)
  | endSess (session_id : String)
deriving Repr, DecidableEq

/-- Whether an operation is an `end_session` call. -/
def Op.isEndSession : Op → Bool
  | .endSess _ => true
  | _ => false

/-- Apply a public operation to the world. -/
def applyOp (w : World) : Op → World
  | .processMsg m id ph pl => (process_message w m id ph pl).2
  | .authorize a => (handle_whatsapp_authorization w a).2
  | .endSess id => (end_session w id).2

/-- Run a sequence of public operations. -/
def runOps : World → List Op → World
  | w, [] => w
  | w, op :: rest => runOps (applyOp w op) rest

/-! ## Properties -/

/-- C7: the validator correctness table: `"Jo"` is rejected at `step1_name`,
`"João Silva"` accepted; `"preciso de ajuda"` rejected at `step3_area`,
`"preciso de um advogado penal"` accepted; `"11999999999"` accepted at
`phone_collection` (web), `"123"` rejected. -/
theorem C7_validator_table :
    (validate_answer "Jo" "step1_name" "web").1 = false ∧
    (validate_answer "João Silva" "step1_name" "web").1 = true ∧
    (validate_answer "preciso de ajuda" "step3_area" "web").1 = false ∧
    (validate_answer "preciso de um advogado penal" "step3_area" "web").1 = true ∧
    (validate_answer "11999999999" "phone_collection" "web").1 = true ∧
    (validate_answer "123" "phone_collection" "web").1 = false := by
  decide

/-- The claim's "fully-populated maximal lead_data": trimmed name of ≥ 3
characters with ≥ 2 tokens, phone of ≥ 10 characters, area containing a
high-value keyword, case details of length ≥ 50, non-empty confirmation. -/
def maximal_lead_data (ld : LeadData) : Prop :=
  (pyTrim (ld.identification.getD "")).length ≥ 3 ∧
  (pySplit (pyTrim (ld.identification.getD ""))).length ≥ 2 ∧
  (pyTrim (ld.phone.getD "")).length ≥ 10 ∧
  (["penal", "saude", "saúde", "criminal", "plano"].any
    (fun k => containsSub (pyLower (pyTrim (ld.area_qualification.getD ""))) k)) = true ∧
  (pyTrim (ld.case_details.getD "")).length ≥ 50 ∧
  pyTrim (ld.confirmation.getD "") ≠ ""

/-- C8: scorer bounds.  The score (in hundredths) always lies in `[0,1]`
after rescaling, an empty `lead_data` scores `0`, a maximal lead scores
`≥ 0.95`, and the listed point values sum to exactly `1.00`. -/
theorem C8_scorer_bounds :
    (∀ ld p, (0 : ℚ) ≤ (calculate_qualification_score ld p : ℚ) / 100 ∧
      (calculate_qualification_score ld p : ℚ) / 100 ≤ 1) ∧
    (∀ p, calculate_qualification_score ({} : LeadData) p = 0) ∧
    (∀ ld p, maximal_lead_data ld →
      (0.95 : ℚ) ≤ (calculate_qualification_score ld p : ℚ) / 100) ∧
    ((0.15 : ℚ) + 0.10 + 0.25 + 0.15 + 0.10 + 0.08 + 0.04 + 0.03 + 0.10 = 1.00) := by
  refine ⟨?_, ?_, ?_, by norm_num⟩
  · intro ld p
    have hub : calculate_qualification_score ld p ≤ 100 := by
      unfold calculate_qualification_score
      exact min_le_right _ _
    constructor
    · positivity
    · rw [div_le_one (by norm_num)]
      exact_mod_cast hub.trans (by norm_num)
  · intro p
    rfl
  · intro ld p h
    obtain ⟨h1, h2, h3, h4, h5, h6⟩ := h
    have hphone : pyTrim (ld.phone.getD "") ≠ "" := by
      intro hc; rw [hc] at h3; simp [String.length] at h3
    have harea : pyTrim (ld.area_qualification.getD "") ≠ "" := by
      intro hc; rw [hc] at h4; simp [pyLower, containsSub, containsChars] at h4
    have hdet : pyTrim (ld.case_details.getD "") ≠ "" := by
      intro hc; rw [hc] at h5; simp [String.length] at h5
    have hdet20 : (pyTrim (ld.case_details.getD "")).length ≥ 20 := by omega
    have hscore : calculate_qualification_score ld p = 100 := by
      unfold calculate_qualification_score
      dsimp only
      rw [if_pos h1, if_pos h2, if_pos ⟨hphone, h3⟩, if_pos harea, if_pos ⟨harea, h4⟩,
        if_pos hdet, if_pos ⟨hdet, hdet20⟩, if_pos ⟨hdet, h5⟩, if_pos h6]
      rfl
    rw [hscore]
    norm_num

/-- The claim's eligibility criteria for a `web` session, stated from the
spec's words, to be compared against `should_notify_lawyers`. -/
def spec_web_notify_criteria (s : Session) : Prop :=
  s.flow_completed = true ∧
  truthyOS s.lead_data.identification = true ∧
  truthyOS s.lead_data.area_qualification = true ∧
  truthyOS s.lead_data.case_details = true ∧
  truthyOS s.lead_data.phone = true ∧
  truthyOS s.lead_data.confirmation = true ∧
  (pyTrim (s.lead_data.identification.getD "")).length ≥ 3 ∧
  (pyTrim (s.lead_data.case_details.getD "")).length ≥ 15 ∧
  (pyTrim (s.lead_data.phone.getD "")).length ≥ 10 ∧
  calculate_qualification_score s.lead_data "web" ≥ 80

/-- The claim's eligibility criteria for a `whatsapp` session, stated from
the spec's words ("the same minimum lengths": 3 characters for the name
and area fields, 10 for the phone). -/
def spec_whatsapp_notify_criteria (s : Session) : Prop :=
  s.message_count ≥ 3 ∧
  truthyOS s.lead_data.identification = true ∧
  truthyOS s.lead_data.area_qualification = true ∧
  truthyOS s.lead_data.phone = true ∧
  (pyTrim (s.lead_data.identification.getD "")).length ≥ 3 ∧
  (pyTrim (s.lead_data.area_qualification.getD "")).length ≥ 3 ∧
  (pyTrim (s.lead_data.phone.getD "")).length ≥ 10 ∧
  (s.current_step = "step5_confirmation" ∨ s.current_step = "completed") ∧
  calculate_qualification_score s.lead_data "whatsapp" ≥ 70

/-- C2: for a session with `lawyers_notified` false, the gate fires exactly
on the claimed criteria (scores in hundredths: `0.8 ↦ 80`, `0.7 ↦ 70`), and
otherwise answers `not_qualified_yet`. -/
theorem C2_notification_gate_criteria (s : Session)
    (h : s.lawyers_notified = false) :
    ((should_notify_lawyers s "web").should_notify = true ↔ spec_web_notify_criteria s) ∧
    ((should_notify_lawyers s "whatsapp").should_notify = true ↔ spec_whatsapp_notify_criteria s) ∧
    (¬ spec_web_notify_criteria s →
      (should_notify_lawyers s "web").reason = "not_qualified_yet") ∧
    (¬ spec_whatsapp_notify_criteria s →
      (should_notify_lawyers s "whatsapp").reason = "not_qualified_yet") ∧
    (∀ p, p ≠ "web" → p ≠ "whatsapp" →
      (should_notify_lawyers s p).should_notify = false ∧
      (should_notify_lawyers s p).reason = "not_qualified_yet") := by
  have hra : ¬ s.lawyers_notified = true := by simp [h]
  have hww : ¬ (("whatsapp" : String) = "web") := by decide
  unfold should_notify_lawyers
  simp only [if_neg hra]
  refine ⟨?_, ?_, ?_, ?_, ?_⟩
  · simp only [if_true, if_false]
    unfold spec_web_notify_criteria
    split
    · rename_i hc
      obtain ⟨⟨hfc, ⟨ha, hb, hcd, hd, he⟩, h3, h15, h10⟩, hsc⟩ := hc
      exact ⟨fun _ => ⟨hfc, ha, hb, hcd, hd, he, h3, h15, h10, hsc⟩, fun _ => rfl⟩
    · rename_i hc
      constructor
      · intro hb; simp at hb
      · intro hs
        obtain ⟨hfc, ha, hb, hcd, hd, he, h3, h15, h10, hsc⟩ := hs
        exact absurd ⟨⟨hfc, ⟨ha, hb, hcd, hd, he⟩, h3, h15, h10⟩, hsc⟩ hc
  · simp only [if_neg hww, if_true, if_false]
    unfold spec_whatsapp_notify_criteria
    split
    · rename_i hc
      obtain ⟨⟨hmc, ⟨ha, hb, hd⟩, h3, h3a, h10⟩, hstep, hsc⟩ := hc
      exact ⟨fun _ => ⟨hmc, ha, hb, hd, h3, h3a, h10, hstep, hsc⟩, fun _ => rfl⟩
    · rename_i hc
      constructor
      · intro hb; simp at hb
      · intro hs
        obtain ⟨hmc, ha, hb, hd, h3, h3a, h10, hstep, hsc⟩ := hs
        exact absurd ⟨⟨hmc, ⟨ha, hb, hd⟩, h3, h3a, h10⟩, hstep, hsc⟩ hc
  · intro hn
    simp only [if_true, if_false]
    split
    · rename_i hc
      exfalso
      obtain ⟨⟨hfc, ⟨ha, hb, hcd, hd, he⟩, h3, h15, h10⟩, hsc⟩ := hc
      exact hn ⟨hfc, ha, hb, hcd, hd, he, h3, h15, h10, hsc⟩
    · rfl
  · intro hn
    simp only [if_neg hww, if_true, if_false]
    split
    · rename_i hc
      exfalso
      obtain ⟨⟨hmc, ⟨ha, hb, hd⟩, h3, h3a, h10⟩, hstep, hsc⟩ := hc
      exact hn ⟨hmc, ha, hb, hd, h3, h3a, h10, hstep, hsc⟩
    · rfl
  · intro p hp1 hp2
    rw [if_neg hp1, if_neg hp2]
    exact ⟨rfl, rfl⟩

/-- Witness for C2: a concrete qualified web session satisfies the claimed
criteria and fires the gate, via `C2_notification_gate_criteria`. -/
theorem C2_notification_gate_criteria_witness :
    (should_notify_lawyers
      { platform := "web", flow_completed := true, current_step := "completed",
        lead_data := { identification := some "Maria Souza",
                       area_qualification := some "Direito Penal",
                       case_details := some "Fui acusada injustamente de um crime que não cometi",
                       phone := some "11987654321", confirmation := some "sim" } }
      "web").should_notify = true := by
  have h := (C2_notification_gate_criteria
    { platform := "web", flow_completed := true, current_step := "completed",
      lead_data := { identification := some "Maria Souza",
                     area_qualification := some "Direito Penal",
                     case_details := some "Fui acusada injustamente de um crime que não cometi",
                     phone := some "11987654321", confirmation := some "sim" } }
    (by decide)).1
  exact h.mpr (by unfold spec_web_notify_criteria; decide)

theorem save_user_session_notifyCalls (w : World) (id : String) (s : Session) :
    (save_user_session w id s).2.notifyCalls = w.notifyCalls := by
  unfold save_user_session; split <;> rfl

theorem save_lead_data_notifyCalls (w : World) :
    (save_lead_data w).2.notifyCalls = w.notifyCalls := by
  unfold save_lead_data; split <;> rfl

theorem send_text_message_notifyCalls (w : World) (p t : String) :
    (send_text_message w p t).2.notifyCalls = w.notifyCalls := by
  unfold send_text_message; split <;> rfl

/-- The idempotency guard: with `lawyers_notified` set, the gate returns the
fixed `already_notified` decision (no score computed, no criteria listed),
whatever the platform and lead data. -/
theorem should_notify_lawyers_already_notified (s : Session) (p : String)
    (h : s.lawyers_notified = true) :
    should_notify_lawyers s p =
      { should_notify := false, reason := "already_notified" } := by
  unfold should_notify_lawyers; rw [if_pos h]

theorem notifyCalls_of_save_eq {w : World} {id : String} {s : Session}
    {r : Except String Unit} {w1 : World}
    (h : save_user_session w id s = (r, w1)) : w1.notifyCalls = w.notifyCalls := by
  have hs := save_user_session_notifyCalls w id s
  rw [h] at hs
  exact hs

theorem notifyCalls_of_send_eq {w : World} {p t : String}
    {r : Except String Bool} {w1 : World}
    (h : send_text_message w p t = (r, w1)) : w1.notifyCalls = w.notifyCalls := by
  have hs := send_text_message_notifyCalls w p t
  rw [h] at hs
  exact hs

theorem notifyCalls_of_lead_eq {w : World}
    {r : Except String String} {w1 : World}
    (h : save_lead_data w = (r, w1)) : w1.notifyCalls = w.notifyCalls := by
  have hs := save_lead_data_notifyCalls w
  rw [h] at hs
  exact hs

theorem finalization_notify_block_already (w1 : World) (session_id : String)
    (s1 : Session) (a b c d : String) (h : s1.lawyers_notified = true) :
    finalization_notify_block w1 session_id s1 a b c d = (true, s1, w1) := by
  unfold finalization_notify_block
  rw [if_neg (not_not_intro h)]

theorem handle_lead_finalization_core_already (w : World) (id : String) (s0 : Session)
    (h : s0.lawyers_notified = true) :
    (handle_lead_finalization_core w id s0).2.2.notifyCalls = w.notifyCalls ∧
    (handle_lead_finalization_core w id s0).2.1.lawyers_notified = true := by
  unfold handle_lead_finalization_core
  dsimp only
  split
  · exact ⟨rfl, h⟩
  · split
    · exact ⟨rfl, h⟩
    · split
      · rename_i heq
        exact ⟨notifyCalls_of_save_eq heq, h⟩
      · rename_i u w1 heq
        have h1 := notifyCalls_of_save_eq heq
        rw [finalization_notify_block_already w1 id]
        · dsimp only
          refine ⟨?_, h⟩
          rcases hsl : save_lead_data w1 with ⟨lr, w3⟩
          have h3 := notifyCalls_of_lead_eq hsl
          dsimp only
          split
          · split <;> rename_i heqs <;> dsimp only <;>
              rw [notifyCalls_of_send_eq heqs, h3, h1]
          · dsimp only
            rw [h3, h1]
        · exact h

theorem handle_lead_finalization_already (w : World) (id : String) (s0 : Session)
    (h : s0.lawyers_notified = true) :
    (handle_lead_finalization w id s0).2.2.notifyCalls = w.notifyCalls ∧
    (handle_lead_finalization w id s0).2.1.lawyers_notified = true := by
  unfold handle_lead_finalization
  rcases hc : handle_lead_finalization_core w id s0 with ⟨r, s1, w1⟩
  have hcore := handle_lead_finalization_core_already w id s0 h
  rw [hc] at hcore
  cases r with
  | ok v => exact hcore
  | error e =>
    dsimp only
    split
    · exact hcore
    · exact hcore

theorem notify_lawyers_if_qualified_already (w : World) (id : String)
    (s : Session) (p : String) (h : s.lawyers_notified = true) :
    notify_lawyers_if_qualified w id s p =
      ({ notified := false, reason := some "already_notified" }, s, w) := by
  unfold notify_lawyers_if_qualified
  rw [should_notify_lawyers_already_notified s p h]
  rfl

/-- One call into the two side-effecting notification paths of the
orchestrator (the spec's §4.4/§4.6 call sites). -/
inductive NotifPathCall where
  | finalize
  | notifyIfQualified (platform : String)
deriving Repr, DecidableEq

/-- Run a sequence of notification/finalization calls for one session,
threading the session record and the world. -/
def runNotifPaths (session_id : String) : Session × World → List NotifPathCall → Session × World
  | sw, [] => sw
  | (s, w), NotifPathCall.finalize :: rest =>
    let r := handle_lead_finalization w session_id s
    runNotifPaths session_id (r.2.1, r.2.2) rest
  | (s, w), NotifPathCall.notifyIfQualified p :: rest =>
    let r := notify_lawyers_if_qualified w session_id s p
    runNotifPaths session_id (r.2.1, r.2.2) rest

theorem runNotifPaths_already (id : String) (calls : List NotifPathCall) :
    ∀ s w, s.lawyers_notified = true →
      (runNotifPaths id (s, w) calls).2.notifyCalls = w.notifyCalls ∧
      (runNotifPaths id (s, w) calls).1.lawyers_notified = true := by
  induction calls with
  | nil => exact fun s w h => ⟨rfl, h⟩
  | cons c rest ih =>
    intro s w h
    cases c with
    | finalize =>
      have hf := handle_lead_finalization_already w id s h
      have hr := ih (handle_lead_finalization w id s).2.1
        (handle_lead_finalization w id s).2.2 hf.2
      exact ⟨by rw [runNotifPaths]; rw [hr.1, hf.1], by rw [runNotifPaths]; exact hr.2⟩
    | notifyIfQualified p =>
      have heq := notify_lawyers_if_qualified_already w id s p h
      have hr := ih (notify_lawyers_if_qualified w id s p).2.1
        (notify_lawyers_if_qualified w id s p).2.2 (by rw [heq]; exact h)
      refine ⟨?_, ?_⟩
      · rw [runNotifPaths]
        rw [hr.1, heq]
      · rw [runNotifPaths]
        exact hr.2

/-- C1: single-fire notification.  Once `lawyers_notified` is true:
the gate short-circuits to the fixed `already_notified` decision before
evaluating any other criterion (no score, no missing-criteria diagnostics
are computed); `_handle_lead_finalization` performs no dispatcher call;
and any sequence of calls to the notification/finalization paths performs
no dispatcher call at all — so the dispatcher is invoked at most once
after `lawyers_notified` becomes true. -/
theorem C1_single_fire_notification (s : Session) (w : World)
    (session_id p : String) (calls : List NotifPathCall)
    (h : s.lawyers_notified = true) :
    should_notify_lawyers s p = { should_notify := false, reason := "already_notified" } ∧
    (handle_lead_finalization w session_id s).2.2.notifyCalls = w.notifyCalls ∧
    (runNotifPaths session_id (s, w) calls).2.notifyCalls = w.notifyCalls :=
  ⟨should_notify_lawyers_already_notified s p h,
   (handle_lead_finalization_already w session_id s h).1,
   (runNotifPaths_already session_id calls s w h).1⟩

/-- Witness for C1 at a concrete notified session and a two-call sequence. -/
theorem C1_single_fire_notification_witness :
    should_notify_lawyers { lawyers_notified := true } "web" =
      { should_notify := false, reason := "already_notified" } ∧
    (handle_lead_finalization {} "x" { lawyers_notified := true }).2.2.notifyCalls =
      ({} : World).notifyCalls ∧
    (runNotifPaths "x" ({ lawyers_notified := true }, {})
      [NotifPathCall.finalize, NotifPathCall.notifyIfQualified "whatsapp"]).2.notifyCalls =
      ({} : World).notifyCalls :=
  C1_single_fire_notification { lawyers_notified := true } {} "x" "web"
    [NotifPathCall.finalize, NotifPathCall.notifyIfQualified "whatsapp"] (by decide)

theorem notify_lawyers_if_qualified_not_qualified (w : World) (id : String)
    (s : Session) (p : String)
    (h : (should_notify_lawyers s p).should_notify = false) :
    notify_lawyers_if_qualified w id s p =
      ({ notified := false, reason := some (should_notify_lawyers s p).reason }, s, w) := by
  unfold notify_lawyers_if_qualified
  rw [if_pos (by simp [h])]

theorem handle_whatsapp_authorization_world (w : World) (a : AuthData) :
    (handle_whatsapp_authorization w a).2 = (handle_whatsapp_authorization_core w a).2 := by
  unfold handle_whatsapp_authorization
  rcases h : handle_whatsapp_authorization_core w a with ⟨r, w1⟩
  cases r <;> rfl

/-- C10: a landing-chat authorization event with user data synthesizes the
session with `message_count = 1` on platform `whatsapp`, so the gate's
`message_count ≥ 3` engagement criterion fails, the gate answers
`not_qualified_yet`, and the dispatcher is never invoked at authorization
time (the lead can only be notified by a later inbound message). -/
theorem C10_landing_auth_never_notifies (w : World) (auth : AuthData) (u : UserData)
    (h1 : auth.user_data = some u) (h2 : auth.source = "landing_chat") :
    (landing_chat_session auth.session_id auth.phone_number auth.source u).message_count = 1 ∧
    (landing_chat_session auth.session_id auth.phone_number auth.source u).platform = "whatsapp" ∧
    (should_notify_lawyers
      (landing_chat_session auth.session_id auth.phone_number auth.source u)
      "whatsapp").should_notify = false ∧
    (should_notify_lawyers
      (landing_chat_session auth.session_id auth.phone_number auth.source u)
      "whatsapp").reason = "not_qualified_yet" ∧
    (handle_whatsapp_authorization w auth).2.notifyCalls = w.notifyCalls := by
  have hsn : (should_notify_lawyers
      (landing_chat_session auth.session_id auth.phone_number auth.source u)
      "whatsapp").should_notify = false := by
    simp [should_notify_lawyers, landing_chat_session]
  have hsr : (should_notify_lawyers
      (landing_chat_session auth.session_id auth.phone_number auth.source u)
      "whatsapp").reason = "not_qualified_yet" := by
    simp [should_notify_lawyers, landing_chat_session]
  refine ⟨rfl, rfl, hsn, hsr, ?_⟩
  rw [handle_whatsapp_authorization_world]
  unfold handle_whatsapp_authorization_core
  rw [h1]
  dsimp only
  rw [if_pos h2]
  split
  · rename_i heq
    exact notifyCalls_of_save_eq heq
  · rename_i uu w1 heq
    dsimp only
    rw [notify_lawyers_if_qualified_not_qualified w1 auth.session_id _ "whatsapp" hsn]
    exact notifyCalls_of_save_eq heq

/-- The concrete authorization event used by the C10 witness. -/
def c10auth : AuthData :=
  { session_id := "s1", phone_number := "5511999999999",
    source := "landing_chat", user_data := some { name := some "Maria Souza" } }

/-- The user data carried by `c10auth`. -/
def c10user : UserData := { name := some "Maria Souza" }

/-- Witness for C10 at a concrete landing-chat authorization event. -/
theorem C10_landing_auth_never_notifies_witness :
    (landing_chat_session c10auth.session_id c10auth.phone_number c10auth.source
      c10user).message_count = 1 ∧
    (landing_chat_session c10auth.session_id c10auth.phone_number c10auth.source
      c10user).platform = "whatsapp" ∧
    (should_notify_lawyers
      (landing_chat_session c10auth.session_id c10auth.phone_number c10auth.source c10user)
      "whatsapp").should_notify = false ∧
    (should_notify_lawyers
      (landing_chat_session c10auth.session_id c10auth.phone_number c10auth.source c10user)
      "whatsapp").reason = "not_qualified_yet" ∧
    (handle_whatsapp_authorization {} c10auth).2.notifyCalls = ({} : World).notifyCalls :=
  C10_landing_auth_never_notifies {} c10auth c10user (by decide) (by decide)

theorem get_after_save_ok {w : World} {id : String} {s : Session}
    {u : Unit} {w1 : World}
    (h : save_user_session w id s = (.ok u, w1)) :
    get_user_session w1 id = some s := by
  unfold save_user_session at h
  split at h
  · injection h with h1 h2
    subst h2
    simp only [get_user_session, storeGet]
    rw [if_pos trivial]
  · injection h with h1 h2
    subst h2
    simp only [get_user_session, storeGet]
    rw [if_pos trivial]
  · injection h with h1 h2
    exact Except.noConfusion h1

theorem process_conversation_flow_session_world (w : World) (s : Session) (m : String) :
    (process_conversation_flow w s m).2 = (process_conversation_flow_core w s m).2 := by
  unfold process_conversation_flow
  rcases h : process_conversation_flow_core w s m with ⟨r, s1, w1⟩
  cases r <;> rfl

/-- C4: reset-on-terminal.  When the stored record is completed or ended,
`_get_or_create_session` (the step `process_message` runs first) replaces
it with a newly created session: empty `lead_data`, `current_step`
"greeting" with `first_interaction` true (so the first-interaction handling
of the next flow call moves it to "step1_name"), `reset_count` incremented,
and, for the whatsapp platform, `whatsapp_authorized`,
`authorization_source` and `phone_number` carried over; the new object
replaces the old record in the store. -/
theorem C4_reset_on_terminal (w : World) (session_id platform : String)
    (phone_number : Option String) (sd s1 : Session) (w1 : World)
    (hstored : get_user_session w session_id = some sd)
    (hterm : sd.flow_completed = true ∨ sd.session_ended = true)
    (hok : get_or_create_session w session_id platform phone_number = (.ok s1, w1)) :
    s1.lead_data = ({} : LeadData) ∧
    s1.current_step = "greeting" ∧
    s1.first_interaction = true ∧
    s1.reset_count = sd.reset_count + 1 ∧
    s1.flow_completed = false ∧
    s1.session_ended = false ∧
    s1.message_count = 0 ∧
    get_user_session w1 session_id = some s1 ∧
    (platform = "whatsapp" →
      s1.whatsapp_authorized = sd.whatsapp_authorized ∧
      s1.authorization_source = sd.authorization_source ∧
      (∀ ph, sd.phone_number = some ph → s1.phone_number = some ph)) ∧
    (∀ m w', (process_conversation_flow w' s1 m).2.1.current_step = "step1_name" ∧
             (process_conversation_flow w' s1 m).2.1.first_interaction = false) := by
  unfold get_or_create_session at hok
  rw [hstored] at hok
  dsimp only at hok
  rw [if_pos (Or.symm hterm)] at hok
  split at hok
  · exact absurd hok (by simp)
  · rename_i u w1x heq
    injection hok with h1 h2
    injection h1 with hs
    subst hs
    subst h2
    refine ⟨rfl, rfl, rfl, rfl, rfl, rfl, rfl, get_after_save_ok heq, ?_, ?_⟩
    · intro hp
      subst hp
      refine ⟨by rw [if_pos rfl], rfl, ?_⟩
      intro ph hph
      dsimp only
      rw [if_pos rfl, hph]
    · intro m w'
      rw [process_conversation_flow_session_world]
      unfold process_conversation_flow_core
      dsimp only
      rw [if_neg (by simp), if_pos rfl]
      unfold flow_first_interaction_branch
      dsimp only
      split <;> exact ⟨rfl, rfl⟩

/-- The terminal stored session used by the C4 witness. -/
def c4old : Session :=
  { session_id := "sid", platform := "whatsapp", current_step := "completed",
    flow_completed := true, first_interaction := false, whatsapp_authorized := true,
    authorization_source := "button", phone_number := some "5511999999999",
    reset_count := 2, lead_data := { identification := some "Maria Souza" } }

/-- The store holding `c4old` for the C4 witness. -/
def c4w : World := { store := [("sid", c4old)] }

/-- The reset session the C4 witness expects. -/
def c4s1 : Session :=
  { session_id := "sid", platform := "whatsapp", current_step := "greeting",
    lead_data := {}, message_count := 0, flow_completed := false,
    phone_submitted := false, lawyers_notified := false, first_interaction := true,
    whatsapp_authorized := true, authorization_source := "button",
    session_ended := false, phone_number := some "5511999999999", reset_count := 3 }

/-- The world after the C4 witness reset is persisted. -/
def c4w1 : World := { store := [("sid", c4s1), ("sid", c4old)] }

/-- Witness for C4 at a concrete completed whatsapp session. -/
theorem C4_reset_on_terminal_witness :
    c4s1.lead_data = ({} : LeadData) ∧
    c4s1.current_step = "greeting" ∧
    c4s1.first_interaction = true ∧
    c4s1.reset_count = c4old.reset_count + 1 ∧
    c4s1.flow_completed = false ∧
    c4s1.session_ended = false ∧
    c4s1.message_count = 0 ∧
    get_user_session c4w1 "sid" = some c4s1 ∧
    ("whatsapp" = "whatsapp" →
      c4s1.whatsapp_authorized = c4old.whatsapp_authorized ∧
      c4s1.authorization_source = c4old.authorization_source ∧
      (∀ ph, c4old.phone_number = some ph → c4s1.phone_number = some ph)) ∧
    (∀ m w', (process_conversation_flow w' c4s1 m).2.1.current_step = "step1_name" ∧
             (process_conversation_flow w' c4s1 m).2.1.first_interaction = false) :=
  C4_reset_on_terminal c4w "sid" "whatsapp" none c4old c4s1 c4w1
    (by decide) (by decide) (by decide)

/-- The whatsapp session at the confirmation step, with no phone anywhere,
used to exhibit the C5 divergence. -/
def c5sess : Session :=
  { session_id := "s5", platform := "whatsapp", current_step := "step5_confirmation",
    first_interaction := false,
    lead_data := { identification := some "Maria Souza",
                   area_qualification := some "penal",
                   case_details := some "Fui acusada injustamente de um crime",
                   preferred_contact_time := some "manhã" } }

set_option maxRecDepth 16384 in
/-- C5: evaluating the flow at the failing input.  Confirming with "sim"
when neither `lead_data.phone` nor the session's phone number yields a
valid phone does return the re-prompt for a valid phone number — but the
session has already been marked `current_step = "completed"` and
`flow_completed = true` and persisted that way, so the completed step IS
recorded, contrary to the claim's "the state is left so the answer can be
recollected" (the next inbound message resets the session instead). -/
theorem C5_reprompt_but_completed_recorded :
    resolve_phone c5sess.lead_data c5sess = "" ∧
    (process_conversation_flow {} c5sess "sim").1 =
      "Para finalizar, Maria, preciso do seu WhatsApp com DDD (ex: 11999999999):" ∧
    (process_conversation_flow {} c5sess "sim").2.1.flow_completed = true ∧
    (process_conversation_flow {} c5sess "sim").2.1.current_step = "completed" ∧
    (get_user_session (process_conversation_flow {} c5sess "sim").2.2 "s5").map
      (fun s => (s.flow_completed, s.current_step)) = some (true, "completed") := by
  decide

set_option maxRecDepth 16384 in
/-- C6, counterexample: a first message from an unseen unauthorized WhatsApp
sender gets the fixed redirect, yet a fresh session record IS created and
persisted by `_get_or_create_session` before the authorization check —
refuting "no session is created". -/
theorem C6_counterexample_session_created :
    get_user_session ({} : World) "5511988887777" = none ∧
    (process_message {} "oi" "5511988887777" none "whatsapp").1.response =
      get_whatsapp_unauthorized_message ∧
    (process_message {} "oi" "5511988887777" none "whatsapp").1.response_type =
      "whatsapp_unauthorized" ∧
    get_user_session (process_message {} "oi" "5511988887777" none "whatsapp").2
      "5511988887777" = some (freshSession "5511988887777" "whatsapp") := by
  decide

/-- C6, amended: for a WhatsApp message whose retrieved-or-created session
has `whatsapp_authorized` false and empty `lead_data`, `process_message`
returns exactly the fixed redirect result and performs no effect beyond
the session-retrieval step (no flow processing, no `message_count`
increment, no further store write: the world stays as
`_get_or_create_session` left it). -/
theorem C6_unauthorized_redirect (w : World) (m session_id : String)
    (phone_number : Option String) (sd : Session) (w1 : World)
    (hid : ¬ (session_id = "" ∨ pyTrim session_id = ""))
    (hok : get_or_create_session w session_id "whatsapp" phone_number = (.ok sd, w1))
    (hauth : sd.whatsapp_authorized = false)
    (hlead : sd.lead_data = ({} : LeadData)) :
    process_message w m session_id phone_number "whatsapp" =
      ({ response_type := "whatsapp_unauthorized", platform := "whatsapp",
         session_id := some session_id, response := get_whatsapp_unauthorized_message,
         flow_completed := false, lawyers_notified := false,
         whatsapp_authorized := some false }, w1) := by
  unfold process_message process_message_core
  rw [if_neg hid]
  rw [hok]
  dsimp only
  rw [if_pos ⟨rfl, by simp [hauth], by simp [LeadData.isTruthy, hlead]⟩]

/-- Witness for C6 (amended) at a concrete unseen WhatsApp sender. -/
theorem C6_unauthorized_redirect_witness :
    process_message {} "oi" "x1" none "whatsapp" =
      ({ response_type := "whatsapp_unauthorized", platform := "whatsapp",
         session_id := some "x1", response := get_whatsapp_unauthorized_message,
         flow_completed := false, lawyers_notified := false,
         whatsapp_authorized := some false },
       { store := [("x1", freshSession "x1" "whatsapp")] }) :=
  C6_unauthorized_redirect {} "oi" "x1" none (freshSession "x1" "whatsapp")
    { store := [("x1", freshSession "x1" "whatsapp")] }
    (by decide) (by decide) (by decide) (by decide)

theorem patchResponse_response_ne (r : PMResult) : (patchResponse r).response ≠ "" := by
  unfold patchResponse
  split
  · simp
  · rename_i hne
    exact hne

theorem process_message_core_response_ne (w : World) (m id : String)
    (ph : Option String) (pl : String) (r : PMResult) (w1 : World)
    (h : process_message_core w m id ph pl = (.ok r, w1)) : r.response ≠ "" := by
  unfold process_message_core at h
  split at h
  · injection h with h1 h2
    injection h1 with hr
    subst hr
    simp
  · split at h
    · exact absurd h (by simp)
    · split at h
      · injection h with h1 h2
        injection h1 with hr
        subst hr
        simp [get_whatsapp_unauthorized_message]
      · dsimp only at h
        split at h
        · exact absurd h (by simp)
        · split at h
          · exact absurd h (by simp)
          · injection h with h1 h2
            injection h1 with hr
            subst hr
            exact patchResponse_response_ne _

/-- C9: total entry point.  `process_message` is a total function of its
inputs and the collaborator oracle — every internal failure is caught and
converted (the outer `except` yields the `orchestration_error` fallback) —
and the structured result it returns always carries a non-empty response
string. -/
theorem C9_total_entry_point (w : World) (m id : String)
    (ph : Option String) (pl : String) :
    (process_message w m id ph pl).1.response ≠ "" := by
  unfold process_message
  rcases h : process_message_core w m id ph pl with ⟨r, w1⟩
  cases r with
  | ok v =>
    dsimp only
    exact process_message_core_response_ne w m id ph pl v w1 h
  | error e =>
    dsimp only
    split
    · simp
    · rename_i hg
      exact hg

/-- The per-session invariant claimed by the spec:
`flow_completed` holds exactly on step "completed". -/
def SInv (s : Session) : Prop := s.flow_completed = true ↔ s.current_step = "completed"

instance : DecidablePred SInv := fun s => by unfold SInv; infer_instance

/-- The store-wide invariant: every persisted session satisfies `SInv`. -/
def WInv (w : World) : Prop := ∀ pr ∈ w.store, SInv pr.2

instance : DecidablePred WInv := fun w => by unfold WInv; infer_instance

theorem storeGet_mem {st : List (String × Session)} {id : String} {s : Session} :
    storeGet st id = some s → (id, s) ∈ st := by
  induction st with
  | nil => intro h; exact absurd h (by simp [storeGet])
  | cons kv t ih =>
    rcases kv with ⟨k, v⟩
    unfold storeGet
    split
    · rename_i hk
      intro h
      injection h with hv
      subst hv
      subst hk
      exact List.mem_cons_self _ _
    · intro h
      exact List.mem_cons_of_mem _ (ih h)

theorem winv_of_get {w : World} {id : String} {s : Session}
    (hw : WInv w) (h : get_user_session w id = some s) : SInv s :=
  hw (id, s) (storeGet_mem h)

theorem winv_save (w : World) (id : String) (s : Session)
    (hw : WInv w) (hs : SInv s) : WInv (save_user_session w id s).2 := by
  unfold save_user_session
  split
  · intro pr hpr
    rcases List.mem_cons.mp hpr with h | h
    · rw [h]; exact hs
    · exact hw pr h
  · intro pr hpr
    rcases List.mem_cons.mp hpr with h | h
    · rw [h]; exact hs
    · exact hw pr h
  · exact hw

theorem winv_of_save_eq {w : World} {id : String} {s : Session}
    {r : Except String Unit} {w1 : World}
    (heq : save_user_session w id s = (r, w1)) (hw : WInv w) (hs : SInv s) :
    WInv w1 := by
  have h := winv_save w id s hw hs
  rw [heq] at h
  exact h

theorem winv_of_store_eq {w w' : World} (he : w'.store = w.store) (hw : WInv w) :
    WInv w' := by
  intro pr hpr
  rw [he] at hpr
  exact hw pr hpr

theorem notify_store (w : World) (a b c d : String) :
    (notify_lawyers_of_new_lead w a b c d).2.store = w.store := by
  unfold notify_lawyers_of_new_lead; dsimp only; split <;> rfl

theorem send_store (w : World) (p t : String) :
    (send_text_message w p t).2.store = w.store := by
  unfold send_text_message; split <;> rfl

theorem lead_store (w : World) : (save_lead_data w).2.store = w.store := by
  unfold save_lead_data; split <;> rfl

theorem store_of_notify_eq {w : World} {a b c d : String}
    {r : Except String Bool} {w1 : World}
    (h : notify_lawyers_of_new_lead w a b c d = (r, w1)) : w1.store = w.store := by
  have hs := notify_store w a b c d
  rw [h] at hs
  exact hs

theorem store_of_send_eq {w : World} {p t : String}
    {r : Except String Bool} {w1 : World}
    (h : send_text_message w p t = (r, w1)) : w1.store = w.store := by
  have hs := send_store w p t
  rw [h] at hs
  exact hs

theorem store_of_lead_eq {w : World}
    {r : Except String String} {w1 : World}
    (h : save_lead_data w = (r, w1)) : w1.store = w.store := by
  have hs := lead_store w
  rw [h] at hs
  exact hs

theorem winv_notify_if_qualified (w : World) (id : String) (s : Session) (p : String)
    (hw : WInv w) (hs : SInv s) :
    WInv (notify_lawyers_if_qualified w id s p).2.2 ∧
    SInv (notify_lawyers_if_qualified w id s p).2.1 := by
  unfold notify_lawyers_if_qualified
  dsimp only
  split
  · exact ⟨hw, hs⟩
  · split
    · rename_i heq
      refine ⟨?_, hs⟩
      have h := notify_store w (s.lead_data.identification.getD "Lead Qualificado")
        (s.lead_data.phone.getD "") (s.lead_data.area_qualification.getD "não especificada")
        (s.lead_data.case_details.getD "aguardando mais detalhes")
      rw [heq] at h
      exact winv_of_store_eq h hw
    · rename_i success w1 heq
      have h := notify_store w (s.lead_data.identification.getD "Lead Qualificado")
        (s.lead_data.phone.getD "") (s.lead_data.area_qualification.getD "não especificada")
        (s.lead_data.case_details.getD "aguardando mais detalhes")
      rw [heq] at h
      have hw1 : WInv w1 := winv_of_store_eq h hw
      split
      · have hs1 : SInv { s with lawyers_notified := true } := hs
        split
        · rename_i heq2
          exact ⟨winv_of_save_eq heq2 hw1 hs1, hs1⟩
        · rename_i heq2
          exact ⟨winv_of_save_eq heq2 hw1 hs1, hs1⟩
      · exact ⟨hw1, hs⟩


theorem winv_notify_block (w1 : World) (id : String) (s1 : Session)
    (a b c d : String) (hw : WInv w1) (hs : SInv s1) :
    WInv (finalization_notify_block w1 id s1 a b c d).2.2 ∧
    SInv (finalization_notify_block w1 id s1 a b c d).2.1 := by
  unfold finalization_notify_block
  split
  · split
    · rename_i heq
      have hst := notify_store w1 a b c d
      rw [heq] at hst
      exact ⟨winv_of_store_eq hst hw, hs⟩
    · rename_i success wa heq
      have hst := notify_store w1 a b c d
      rw [heq] at hst
      have hwa := winv_of_store_eq hst hw
      split
      · have hs' : SInv { s1 with lawyers_notified := true } := hs
        dsimp only
        split
        · rename_i heq2
          exact ⟨winv_of_save_eq heq2 hwa hs', hs'⟩
        · rename_i heq2
          exact ⟨winv_of_save_eq heq2 hwa hs', hs'⟩
      · exact ⟨hwa, hs⟩
  · exact ⟨hw, hs⟩

theorem winv_finalization_core (w : World) (id : String) (s0 : Session)
    (hs : SInv s0) (hw : WInv w) :
    WInv (handle_lead_finalization_core w id s0).2.2 ∧
    SInv (handle_lead_finalization_core w id s0).2.1 := by
  unfold handle_lead_finalization_core
  dsimp only
  split
  · exact ⟨hw, hs⟩
  · split
    · exact ⟨hw, hs⟩
    · split
      · rename_i heq
        refine ⟨winv_of_save_eq heq hw ?_, hs⟩
        exact hs
      · rename_i u w1 heq
        have hw1 : WInv w1 := winv_of_save_eq heq hw (by exact hs)
        have hblock := winv_notify_block w1 id
          (finalization_session s0 (resolve_phone s0.lead_data s0)
            (format_brazilian_phone (resolve_phone s0.lead_data s0)))
          (s0.lead_data.identification.getD "Cliente")
          (resolve_phone s0.lead_data s0)
          (s0.lead_data.area_qualification.getD "não especificada")
          (s0.lead_data.case_details.getD "aguardando mais detalhes")
          hw1 (by exact hs)
        rcases hb : finalization_notify_block w1 id
          (finalization_session s0 (resolve_phone s0.lead_data s0)
            (format_brazilian_phone (resolve_phone s0.lead_data s0)))
          (s0.lead_data.identification.getD "Cliente")
          (resolve_phone s0.lead_data s0)
          (s0.lead_data.area_qualification.getD "não especificada")
          (s0.lead_data.case_details.getD "aguardando mais detalhes")
          with ⟨ns, s2, w2⟩
        rw [hb] at hblock
        dsimp only
        rcases hsl : save_lead_data w2 with ⟨lr, w3⟩
        have hw3 : WInv w3 := winv_of_store_eq (store_of_lead_eq hsl) hblock.1
        dsimp only
        split
        · split <;> rename_i heqs <;>
            exact ⟨winv_of_store_eq (store_of_send_eq heqs) hw3, hblock.2⟩
        · exact ⟨hw3, hblock.2⟩

theorem winv_finalization (w : World) (id : String) (s0 : Session)
    (hs : SInv s0) (hw : WInv w) :
    WInv (handle_lead_finalization w id s0).2.2 ∧
    SInv (handle_lead_finalization w id s0).2.1 := by
  unfold handle_lead_finalization
  rcases hc : handle_lead_finalization_core w id s0 with ⟨r, s1, w1⟩
  have h := winv_finalization_core w id s0 hs hw
  rw [hc] at h
  cases r with
  | ok v => exact h
  | error e =>
    dsimp only
    split <;> exact h

theorem winv_flow_ended (w : World) (s0 : Session) (hs : SInv s0) (hw : WInv w) :
    WInv (flow_ended_branch w s0).2.2 ∧ SInv (flow_ended_branch w s0).2.1 := by
  unfold flow_ended_branch
  split <;> exact ⟨hw, hs⟩

theorem winv_flow_first (w : World) (s0 : Session)
    (hfc : s0.flow_completed = false) (hw : WInv w) :
    WInv (flow_first_interaction_branch w s0).2.2 ∧
    SInv (flow_first_interaction_branch w s0).2.1 := by
  unfold flow_first_interaction_branch
  dsimp only
  split <;> rename_i heq <;>
    exact ⟨winv_of_save_eq heq hw (by unfold SInv; dsimp only; rw [hfc]; simp),
      by unfold SInv; dsimp only; rw [hfc]; simp⟩

theorem winv_flow_greeting (w : World) (s0 : Session)
    (hfc : s0.flow_completed = false) (hw : WInv w) :
    WInv (flow_greeting_branch w s0).2.2 ∧ SInv (flow_greeting_branch w s0).2.1 := by
  unfold flow_greeting_branch
  dsimp only
  split <;> rename_i heq <;>
    exact ⟨winv_of_save_eq heq hw (by unfold SInv; dsimp only; rw [hfc]; simp),
      by unfold SInv; dsimp only; rw [hfc]; simp⟩

theorem winv_flow_completed (w : World) (s0 : Session) (hs : SInv s0) (hw : WInv w) :
    WInv (flow_completed_branch w s0).2.2 ∧ SInv (flow_completed_branch w s0).2.1 := by
  unfold flow_completed_branch
  split <;> exact ⟨hw, hs⟩

theorem winv_flow_phone (w : World) (s0 : Session) (m : String)
    (hs : SInv s0) (hfc : s0.flow_completed = false) (hw : WInv w) :
    WInv (flow_phone_collection_branch w s0 m).2.2 ∧
    SInv (flow_phone_collection_branch w s0 m).2.1 := by
  unfold flow_phone_collection_branch
  dsimp only
  split
  · split
    · exact ⟨hw, hs⟩
    · split
      · rename_i heq
        exact ⟨winv_of_save_eq heq hw (by unfold SInv; dsimp only; rw [hfc]; simp),
          by unfold SInv; dsimp only; rw [hfc]; simp⟩
      · rename_i heq
        split <;>
          exact ⟨winv_of_save_eq heq hw (by unfold SInv; dsimp only; rw [hfc]; simp),
            by unfold SInv; dsimp only; rw [hfc]; simp⟩
  · split
    · exact ⟨hw, hs⟩
    · split
      · rename_i heq
        exact ⟨winv_of_save_eq heq hw (by unfold SInv; dsimp only; rw [hfc]; simp),
          by unfold SInv; dsimp only; rw [hfc]; simp⟩
      · rename_i heq
        split <;>
          exact ⟨winv_of_save_eq heq hw (by unfold SInv; dsimp only; rw [hfc]; simp),
            by unfold SInv; dsimp only; rw [hfc]; simp⟩

theorem winv_flow_step (w : World) (s0 : Session) (m : String) (cfg : StepConfig)
    (hs : SInv s0) (hfc : s0.flow_completed = false) (hw : WInv w) :
    WInv (flow_step_branch w s0 m cfg).2.2 ∧ SInv (flow_step_branch w s0 m cfg).2.1 := by
  unfold flow_step_branch
  dsimp only
  split
  · exact ⟨hw, hs⟩
  · split
    · rename_i hnext
      split
      · rename_i heq
        exact ⟨winv_of_save_eq heq hw (by unfold SInv; dsimp only; simp),
          by unfold SInv; dsimp only; simp⟩
      · rename_i heq
        exact winv_finalization _ _ _
          (by unfold SInv; dsimp only; simp)
          (winv_of_save_eq heq hw (by unfold SInv; dsimp only; simp))
    · rename_i hnext
      split
      · rename_i heq
        exact ⟨winv_of_save_eq heq hw
          (by unfold SInv; dsimp only; rw [hfc]; simp [hnext]),
          by unfold SInv; dsimp only; rw [hfc]; simp [hnext]⟩
      · rename_i heq
        split <;>
          exact ⟨winv_of_save_eq heq hw
            (by unfold SInv; dsimp only; rw [hfc]; simp [hnext]),
            by unfold SInv; dsimp only; rw [hfc]; simp [hnext]⟩

theorem winv_flow_invalid (w : World) (s0 : Session)
    (hfc : s0.flow_completed = false) (hw : WInv w) :
    WInv (flow_invalid_branch w s0).2.2 ∧ SInv (flow_invalid_branch w s0).2.1 := by
  unfold flow_invalid_branch
  dsimp only
  split <;> rename_i heq <;>
    exact ⟨winv_of_save_eq heq hw (by unfold SInv; dsimp only; rw [hfc]; simp),
      by unfold SInv; dsimp only; rw [hfc]; simp⟩

theorem winv_flow_core (w : World) (s0 : Session) (m : String)
    (hs : SInv s0) (hfc : s0.flow_completed = false) (hw : WInv w) :
    WInv (process_conversation_flow_core w s0 m).2.2 ∧
    SInv (process_conversation_flow_core w s0 m).2.1 := by
  unfold process_conversation_flow_core
  split
  · exact winv_flow_ended w s0 hs hw
  · split
    · exact winv_flow_first w s0 hfc hw
    · split
      · exact winv_flow_greeting w s0 hfc hw
      · split
        · exact winv_flow_completed w s0 hs hw
        · split
          · exact winv_flow_phone w s0 m hs hfc hw
          · split
            · exact winv_flow_step w s0 m _ hs hfc hw
            · exact winv_flow_invalid w s0 hfc hw

theorem winv_flow (w : World) (s0 : Session) (m : String)
    (hs : SInv s0) (hfc : s0.flow_completed = false) (hw : WInv w) :
    WInv (process_conversation_flow w s0 m).2.2 ∧
    SInv (process_conversation_flow w s0 m).2.1 := by
  have h := winv_flow_core w s0 m hs hfc hw
  have he := process_conversation_flow_session_world w s0 m
  constructor
  · have : (process_conversation_flow w s0 m).2.2 =
        (process_conversation_flow_core w s0 m).2.2 := by rw [he]
    rw [this]
    exact h.1
  · have : (process_conversation_flow w s0 m).2.1 =
        (process_conversation_flow_core w s0 m).2.1 := by rw [he]
    rw [this]
    exact h.2

theorem applyPhoneArg_flow_completed (s : Session) (p : Option String) :
    (applyPhoneArg s p).flow_completed = s.flow_completed := by
  unfold applyPhoneArg
  split
  · split <;> rfl
  · rfl

theorem applyPhoneArg_current_step (s : Session) (p : Option String) :
    (applyPhoneArg s p).current_step = s.current_step := by
  unfold applyPhoneArg
  split
  · split <;> rfl
  · rfl

theorem winv_get_or_create (w : World) (id pl : String) (ph : Option String)
    (hw : WInv w) :
    WInv (get_or_create_session w id pl ph).2 ∧
    (∀ s, (get_or_create_session w id pl ph).1 = .ok s →
      s.flow_completed = false ∧ SInv s) := by
  unfold get_or_create_session
  split
  · rename_i sd hsd
    split
    · dsimp only
      split
      · rename_i heq
        refine ⟨winv_of_save_eq heq hw (by unfold SInv; dsimp only; simp), ?_⟩
        intro s hok
        exact absurd hok (by simp)
      · rename_i u w1 heq
        refine ⟨winv_of_save_eq heq hw (by unfold SInv; dsimp only; simp), ?_⟩
        intro s hok
        injection hok with h1
        subst h1
        exact ⟨rfl, by unfold SInv; dsimp only; simp⟩
    · rename_i hterm
      have hsd' : SInv sd := winv_of_get hw hsd
      refine ⟨hw, ?_⟩
      intro s hok
      injection hok with h1
      subst h1
      have hfc : sd.flow_completed = false := by
        rcases hb : sd.flow_completed
        · rfl
        · exact absurd (Or.inr hb) hterm
      constructor
      · rw [applyPhoneArg_flow_completed]
        exact hfc
      · unfold SInv
        rw [applyPhoneArg_flow_completed, applyPhoneArg_current_step]
        exact hsd'
  · dsimp only
    split
    · rename_i heq
      refine ⟨winv_of_save_eq heq hw (by unfold SInv; simp [freshSession]), ?_⟩
      intro s hok
      exact absurd hok (by simp)
    · rename_i u w1 heq
      refine ⟨winv_of_save_eq heq hw (by unfold SInv; simp [freshSession]), ?_⟩
      intro s hok
      injection hok with h1
      subst h1
      constructor
      · rw [applyPhoneArg_flow_completed]
        simp [freshSession]
      · unfold SInv
        rw [applyPhoneArg_flow_completed, applyPhoneArg_current_step]
        simp [freshSession]

theorem winv_auth (w : World) (a : AuthData) (hw : WInv w) :
    WInv (handle_whatsapp_authorization w a).2 := by
  rw [handle_whatsapp_authorization_world]
  unfold handle_whatsapp_authorization_core
  dsimp only
  split
  · rename_i ud hud
    split
    · split
      · rename_i heq
        exact winv_of_save_eq heq hw (by unfold SInv; simp [landing_chat_session])
      · rename_i u w1 heq
        have hw1 := winv_of_save_eq heq hw
          (by unfold SInv; simp [landing_chat_session])
        dsimp only
        exact (winv_notify_if_qualified w1 a.session_id
          (landing_chat_session a.session_id a.phone_number a.source ud) "whatsapp" hw1
          (by unfold SInv; simp [landing_chat_session])).1
    · split
      · rename_i sd heq
        have hsd := winv_of_get hw heq
        split
        · rename_i heq2
          exact winv_of_save_eq heq2 hw (by exact hsd)
        · rename_i heq2
          exact winv_of_save_eq heq2 hw (by exact hsd)
      · split
        · rename_i heq2
          exact winv_of_save_eq heq2 hw (by unfold SInv; simp [freshSession])
        · rename_i heq2
          exact winv_of_save_eq heq2 hw (by unfold SInv; simp [freshSession])
  · split
    · rename_i sd heq
      have hsd := winv_of_get hw heq
      split
      · rename_i heq2
        exact winv_of_save_eq heq2 hw (by exact hsd)
      · rename_i heq2
        exact winv_of_save_eq heq2 hw (by exact hsd)
    · split
      · rename_i heq2
        exact winv_of_save_eq heq2 hw (by unfold SInv; simp [freshSession])
      · rename_i heq2
        exact winv_of_save_eq heq2 hw (by unfold SInv; simp [freshSession])

theorem winv_pm_auth_step (w1 : World) (id : String) (sd0 : Session) (pl : String)
    (hw : WInv w1) (hfc : sd0.flow_completed = false) (hs : SInv sd0) :
    ∀ s2 w2, pm_auth_step w1 id sd0 pl = .ok (s2, w2) →
      WInv w2 ∧ s2.flow_completed = false ∧ SInv s2 := by
  unfold pm_auth_step
  split
  · dsimp only
    split
    · intro s2 w2 hok
      exact absurd hok (by simp)
    · rename_i u w2' heq
      intro s2 w2 hok
      injection hok with h1
      rw [Prod.mk.injEq] at h1
      obtain ⟨hs2, hw2⟩ := h1
      subst hs2
      subst hw2
      exact ⟨winv_of_save_eq heq hw (by exact hs), hfc, by exact hs⟩
  · intro s2 w2 hok
    injection hok with h1
    rw [Prod.mk.injEq] at h1
    obtain ⟨hs2, hw2⟩ := h1
    subst hs2
    subst hw2
    exact ⟨hw, hfc, hs⟩

theorem pm_inject_phone_flow_completed (s : Session) (pl : String) (ph : Option String) :
    (pm_inject_phone s pl ph).flow_completed = s.flow_completed := by
  unfold pm_inject_phone
  split <;> rfl

theorem pm_inject_phone_current_step (s : Session) (pl : String) (ph : Option String) :
    (pm_inject_phone s pl ph).current_step = s.current_step := by
  unfold pm_inject_phone
  split <;> rfl

theorem process_message_world (w : World) (m id : String)
    (ph : Option String) (pl : String) :
    (process_message w m id ph pl).2 = (process_message_core w m id ph pl).2 := by
  unfold process_message
  rcases h : process_message_core w m id ph pl with ⟨r, w1⟩
  cases r <;> rfl

theorem winv_pm (w : World) (m id : String) (ph : Option String) (pl : String)
    (hw : WInv w) : WInv (process_message w m id ph pl).2 := by
  rw [process_message_world]
  unfold process_message_core
  split
  · exact hw
  · split
    · rename_i heq
      have hg := winv_get_or_create w id pl ph hw
      rw [heq] at hg
      exact hg.1
    · rename_i sd0 w1 heq
      have hg := winv_get_or_create w id pl ph hw
      rw [heq] at hg
      have hsd := hg.2 sd0 rfl
      split
      · exact hg.1
      · split
        · rename_i heq2
          exact hg.1
        · rename_i sd1 w2 heq2
          have hstep := winv_pm_auth_step w1 id sd0 pl hg.1 hsd.1 hsd.2 sd1 w2 heq2
          dsimp only
          have hs2fc : (pm_inject_phone sd1 pl ph).flow_completed = false := by
            rw [pm_inject_phone_flow_completed]
            exact hstep.2.1
          have hs2 : SInv (pm_inject_phone sd1 pl ph) := by
            unfold SInv
            rw [pm_inject_phone_flow_completed, pm_inject_phone_current_step]
            exact hstep.2.2
          have hf := winv_flow w2 (pm_inject_phone sd1 pl ph) m hs2 hs2fc hstep.1
          split
          · rename_i heq3
            exact winv_of_save_eq heq3 hf.1 (by exact hf.2)
          · rename_i heq3
            exact winv_of_save_eq heq3 hf.1 (by exact hf.2)

theorem winv_runOps :
    ∀ (ops : List Op) (w : World), WInv w →
      (∀ op ∈ ops, op.isEndSession = false) → WInv (runOps w ops) := by
  intro ops
  induction ops with
  | nil => exact fun w hw _ => hw
  | cons op rest ih =>
    intro w hw hno
    rw [runOps]
    apply ih
    · cases op with
      | processMsg m id ph pl => exact winv_pm w m id ph pl hw
      | authorize a => exact winv_auth w a hw
      | endSess id =>
        exact absurd (hno _ (List.mem_cons_self _ _)) (by simp [Op.isEndSession])
    · intro op' hmem
      exact hno op' (List.mem_cons_of_mem _ hmem)

/-- The landing-chat authorization event used by the C3 counterexample. -/
def c3auth : AuthData :=
  { session_id := "s1", phone_number := "5511999999999", source := "landing_chat",
    user_data := some { name := some "Maria Souza", area := some "penal",
                        problem := some "problema grave" } }

set_option maxRecDepth 16384 in
/-- C3, counterexample: a landing-chat authorization creates a session with
`flow_completed = true` and `current_step = "completed"`; `end_session`
then sets `current_step = "ended"` but leaves `flow_completed` untouched,
so the stored record violates the claimed biconditional — refuting the
claim over all three public operations. -/
theorem C3_counterexample_end_session :
    ((get_user_session (runOps { store := [], env := {}, notifyCalls := 0 }
        [Op.authorize c3auth, Op.endSess "s1"]) "s1").map
      (fun s => (s.flow_completed, s.current_step))) = some (true, "ended") ∧
    ¬ WInv (runOps { store := [], env := {}, notifyCalls := 0 }
        [Op.authorize c3auth, Op.endSess "s1"]) := by
  constructor
  · decide
  · decide

/-- C3, amended: for every session record reachable through
`process_message` and `handle_whatsapp_authorization` alone (no
`end_session`), `flow_completed = true` holds iff
`current_step = "completed"`. -/
theorem C3_flow_completed_iff_completed (env : Env) (n : Nat) (ops : List Op)
    (hno : ∀ op ∈ ops, op.isEndSession = false) :
    ∀ id s,
      get_user_session (runOps { store := [], env := env, notifyCalls := n } ops) id
        = some s →
      (s.flow_completed = true ↔ s.current_step = "completed") := by
  intro id s hs
  have hw := winv_runOps ops { store := [], env := env, notifyCalls := n }
    (by intro pr hpr; cases hpr) hno
  exact winv_of_get hw hs

/-- The trace and resulting session used by the C3 witness. -/
def c3ops : List Op := [Op.processMsg "oi" "idw" none "web"]

/-- The record the C3 witness reads back from the store. -/
def c3sess : Session :=
  (get_user_session (runOps { store := [], env := {}, notifyCalls := 0 } c3ops)
    "idw").getD {}

set_option maxRecDepth 16384 in
/-- Witness for C3 (amended) on a concrete one-message web trace. -/
theorem C3_flow_completed_iff_completed_witness :
    c3sess.flow_completed = true ↔ c3sess.current_step = "completed" :=
  C3_flow_completed_iff_completed {} 0 c3ops (by decide) "idw" c3sess (by decide)

/-- The maximal lead used by the C8 witness. -/
def c8max : LeadData :=
  { identification := some "Maria Souza",
    area_qualification := some "Direito Penal",
    case_details := some "Fui acusada injustamente de um crime que não cometi, preciso de defesa urgente",
    phone := some "11987654321", confirmation := some "sim" }

/-- Witness for C8's maximal-lead bound at a concrete lead. -/
theorem C8_scorer_bounds_witness :
    (0.95 : ℚ) ≤ (calculate_qualification_score c8max "web" : ℚ) / 100 :=
  C8_scorer_bounds.2.2.1 c8max "web" (by unfold maximal_lead_data; decide)
